import Mathlib

/-!
Verification development for the SaveAction recorder browser extension.

The definitions below are a shallow embedding of the TypeScript sources:

* the background service worker (session coordinator): state record,
  `handleSyncAction`, `handleSaveCurrentState`, the `chrome.tabs.onUpdated`
  navigation merge, `handleStartRecording`, `handleStopRecording`,
  `handlePauseRecording`, `handleResumeRecording`, `resetState`;
* `src/utils/sanitizer.ts`: `maskPassword`, `maskCreditCard`, `maskEmail`,
  `isSensitiveField`, `sanitizeValue`, `sanitizeAction`;
* the recording validator (`validateSelector`, `validateAction`,
  `validateRecording`);
* `src/content/selector-generator.ts`: `SelectorGenerator.generateSelectors`
  and its candidate generators, `isDynamicId`, `isDynamicClass`;
* `src/content/event-listener.ts` (the variant with the `mousedown` handler):
  the click / double-click capture logic (`onClick`, `onMouseDown`,
  `onDoubleClick`, `createClickAction`).

JavaScript strings are modelled as Lean `String`, JS numbers that hold epoch
milliseconds or counters as `Nat` / `Int`, absent (`undefined` / `null`)
values as `Option`, and the `chrome.storage.session` key
`saveaction_current_actions` as an `Option (List Action)` (with `none`
meaning the key is absent).  Browser built-ins that the code calls
(`CSS.escape`, `new URL`, `new Date`, `Date#toISOString`) are modelled by
small executable functions whose doc comments state the modelling choice.
-/

namespace SaveAction

/-! ## JavaScript string primitives -/

/-- Model of `String.prototype.toLowerCase` (ASCII case fold, which is all the
sources rely on). -/
def lowerStr (s : String) : String := String.mk (s.data.map Char.toLower)

/-- Auxiliary for `String.prototype.includes`: does `needle` occur as a
contiguous subsequence of the haystack list? -/
def seqIn (needle : List Char) : List Char → Bool
  | [] => needle.isEmpty
  | c :: t => needle.isPrefixOf (c :: t) || seqIn needle t

/-- Model of `String.prototype.includes`. -/
def strIncludes (s sub : String) : Bool := seqIn sub.data s.data

/-- Model of `'•'.repeat(k)` and friends. -/
def repeatChar (c : Char) (k : Nat) : String := String.mk (List.replicate k c)

/-- JS whitespace as far as `trim` and the `/[\s-]/g` stripping are
concerned. -/
def isJsSpace (c : Char) : Bool := c = ' ' || c = '\t' || c = '\n' || c = '\r'

/-- Model of `String.prototype.trim` (drop JS whitespace from both ends). -/
def jsTrim (s : String) : String :=
  String.mk (((s.data.dropWhile isJsSpace).reverse.dropWhile isJsSpace).reverse)

/-! ## Decimal rendering (`String(n)`) and `padStart` -/

/-- The decimal digit character for `k` (callers pass `k = n % 10`). -/
def jsDigitChar : Nat → Char
  | 0 => '0' | 1 => '1' | 2 => '2' | 3 => '3' | 4 => '4'
  | 5 => '5' | 6 => '6' | 7 => '7' | 8 => '8' | _ => '9'

/-- Big-endian decimal digits of `n` (models `String(n)` for a
non-negative integer).  The recursion is driven by a fuel argument (`n`
itself suffices, since the value shrinks by a factor of 10 each step) so
the definition reduces definitionally. -/
def decDigitsFuel : Nat → Nat → List Char → List Char
  | 0, n, acc => jsDigitChar (n % 10) :: acc
  | fuel + 1, n, acc =>
    if n < 10 then jsDigitChar (n % 10) :: acc
    else decDigitsFuel fuel (n / 10) (jsDigitChar (n % 10) :: acc)

/-- Decimal digit list of `n` (the characters of `String(n)`). -/
def decRepr (n : Nat) : List Char := decDigitsFuel n n []

/-- Numeric value of a big-endian decimal digit list, starting from `a`. -/
def decValFrom (a : Nat) (l : List Char) : Nat :=
  l.foldl (fun acc c => acc * 10 + (c.toNat - 48)) a

/-- Numeric value of a big-endian decimal digit list. -/
def decVal (l : List Char) : Nat := decValFrom 0 l

/-- Model of `String.prototype.padStart(k, c)` on the character list. -/
def padStartChars (k : Nat) (c : Char) (l : List Char) : List Char :=
  List.replicate (k - l.length) c ++ l

/-- The action id the coordinator assigns for counter value `n`:
`act_${String(n).padStart(3, '0')}` (from `handleSyncAction`). -/
def mkActId (n : Nat) : String :=
  "act_" ++ String.mk (padStartChars 3 '0' (decRepr n))

/-- Decode the numeric part of an `act_NNN` id (drop the `act_` prefix and
read the remaining decimal digits). -/
def actIdNum (s : String) : Option Nat :=
  if "act_".data.isPrefixOf s.data then some (decVal (s.data.drop 4)) else none

theorem jsDigitChar_val (k : Nat) (h : k < 10) : (jsDigitChar k).toNat - 48 = k := by
  interval_cases k <;> decide

theorem decDigitsFuel_append (fuel : Nat) : ∀ (n : Nat) (acc : List Char),
    decDigitsFuel fuel n acc = decDigitsFuel fuel n [] ++ acc := by
  induction fuel with
  | zero => intro n acc; simp [decDigitsFuel]
  | succ fuel ih =>
    intro n acc
    by_cases h : n < 10
    · simp [decDigitsFuel, h]
    · simp only [decDigitsFuel, h, if_false]
      rw [ih (n / 10) (jsDigitChar (n % 10) :: acc), ih (n / 10) [jsDigitChar (n % 10)]]
      simp

theorem decValFrom_append (a : Nat) (l₁ l₂ : List Char) :
    decValFrom a (l₁ ++ l₂) = decValFrom (decValFrom a l₁) l₂ := by
  simp [decValFrom, List.foldl_append]

theorem decVal_decDigitsFuel (fuel : Nat) : ∀ (n : Nat), n ≤ fuel →
    decVal (decDigitsFuel fuel n []) = n := by
  induction fuel with
  | zero =>
    intro n hn
    have : n = 0 := Nat.le_zero.mp hn
    subst this
    decide
  | succ fuel ih =>
    intro n hn
    by_cases h : n < 10
    · simp only [decDigitsFuel, h, if_true]
      simp only [decVal, decValFrom, List.foldl_cons, List.foldl_nil, Nat.zero_mul,
        Nat.zero_add]
      rw [jsDigitChar_val (n % 10) (Nat.mod_lt _ (by omega)), Nat.mod_eq_of_lt h]
    · simp only [decDigitsFuel, h, if_false]
      rw [decDigitsFuel_append fuel (n / 10) [jsDigitChar (n % 10)]]
      have hle : n / 10 ≤ fuel := by omega
      rw [decVal, decValFrom_append]
      have := ih (n / 10) hle
      rw [decVal] at this
      rw [this]
      simp only [decValFrom, List.foldl_cons, List.foldl_nil]
      rw [jsDigitChar_val (n % 10) (Nat.mod_lt _ (by omega))]
      omega

theorem decVal_decRepr (n : Nat) : decVal (decRepr n) = n :=
  decVal_decDigitsFuel n n (Nat.le_refl n)

theorem decValFrom_zeros (k : Nat) : decValFrom 0 (List.replicate k '0') = 0 := by
  induction k with
  | zero => rfl
  | succ k ih =>
    rw [List.replicate_succ]
    show decValFrom (0 * 10 + ('0'.toNat - 48)) (List.replicate k '0') = 0
    simpa using ih

theorem decVal_padStart (n : Nat) : decVal (padStartChars 3 '0' (decRepr n)) = n := by
  rw [padStartChars, decVal, decValFrom_append, decValFrom_zeros]
  exact decVal_decRepr n

/-- The numeric part underlying `mkActId n` is `n` itself. -/
theorem actIdNum_mkActId (n : Nat) : actIdNum (mkActId n) = some n := by
  have hdata : (mkActId n).data = "act_".data ++ padStartChars 3 '0' (decRepr n) := by
    rw [mkActId, String.data_append]
  rw [actIdNum, hdata]
  have hpre : "act_".data.isPrefixOf ("act_".data ++ padStartChars 3 '0' (decRepr n)) = true := by
    rw [List.isPrefixOf_iff_prefix]
    exact List.prefix_append _ _
  rw [hpre]
  simp only [if_true]
  have hlen : "act_".data.length = 4 := rfl
  rw [← hlen, List.drop_left, decVal_padStart]

/-- The padded digit block of `mkActId n` always has at least 3 characters. -/
theorem mkActId_digits_length (n : Nat) :
    3 ≤ (padStartChars 3 '0' (decRepr n)).length := by
  rw [padStartChars, List.length_append, List.length_replicate]
  omega

/-- `mkActId` is injective: distinct counter values give distinct ids. -/
theorem mkActId_injective : Function.Injective mkActId := by
  intro a b h
  have ha := actIdNum_mkActId a
  have hb := actIdNum_mkActId b
  rw [h, hb] at ha
  exact (Option.some.injEq _ _).mp ha.symm

/-! ## Selector strategies (`src/types` / `selector-generator.ts`) -/

/-- The selector candidate kinds (`SelectorType` in `src/types`). -/
inductive SelectorType where
  | id | dataTestId | ariaLabel | name | css | text | textContains
  | xpath | xpathAbsolute | position
deriving DecidableEq, Repr

/-- A bag of locator candidates plus the `priority` list
(`SelectorStrategy` in `src/types`).  Absent candidates are `none`. -/
structure SelectorStrategy where
  id : Option String := none
  dataTestId : Option String := none
  ariaLabel : Option String := none
  name : Option String := none
  css : Option String := none
  text : Option String := none
  textContains : Option String := none
  xpath : Option String := none
  xpathAbsolute : Option String := none
  position : Option (String × Nat) := none
  priority : List SelectorType := []
deriving DecidableEq, Repr

/-- Generator configuration (`SelectorConfig` in `src/types`). -/
structure SelectorConfig where
  maxCssDepth : Nat
  includeXPath : Bool
  includePosition : Bool
deriving DecidableEq, Repr

/-- Modelled from the spec: `DEFAULT_SELECTOR_CONFIG` lives in the missing
`src/types` module.  Per the spec all candidates (including the XPath and
position fallbacks) are attempted, and the CSS ancestor walk has a
configurable maximum depth. -/
def DEFAULT_SELECTOR_CONFIG : SelectorConfig :=
  { maxCssDepth := 3, includeXPath := true, includePosition := true }

/-- The DOM-node attributes the selector generator reads.  `tag` is the
upper-case `tagName`; `dataTestId` / `ariaLabel` are `getAttribute` results
(`none` = attribute absent); `nameAttr` / `inputType` are the `name` / `type`
properties (empty string when unset); `text` is the node's `textContent`. -/
structure ElemData where
  idAttr : String := ""
  tag : String := "DIV"
  isInput : Bool := false
  isSelect : Bool := false
  inputType : String := ""
  dataTestId : Option String := none
  ariaLabel : Option String := none
  nameAttr : String := ""
  classes : List String := []
  text : String := ""
deriving DecidableEq, Repr

/-- One step of a node's ancestor chain: the parent element's data, the data
of all the parent's children (the node's sibling list, the node itself
included), and the node's index in that list.  A list of frames, innermost
first, models `parentElement` chains; `document.body` and
`document.documentElement` are recognised by their tag names. -/
structure Frame where
  parent : ElemData
  siblings : List ElemData
  selfIdx : Nat
deriving DecidableEq, Repr

/-- A DOM node in context: its own data plus its ancestor chain (innermost
frame first).  An empty chain means the node has no parent element. -/
structure DomNode where
  data : ElemData
  frames : List Frame
deriving DecidableEq, Repr

/-- Models `CSS.escape`.  Every identifier fed to it in this development is a
plain letters/digits/hyphen name, on which `CSS.escape` is the identity. -/
def cssEscape (s : String) : String := s

/-- `isDynamicId` pattern `/^(react-|vue-|ng-|ember-)/i`. -/
def hasFrameworkPrefix (s : String) : Bool :=
  let l := (lowerStr s).data
  "react-".data.isPrefixOf l || "vue-".data.isPrefixOf l ||
    "ng-".data.isPrefixOf l || "ember-".data.isPrefixOf l

/-- `/\d{k,}/`: some position starts a run of at least `k` decimal digits. -/
def hasDigitRun (k : Nat) (l : List Char) : Bool :=
  l.tails.any (fun t => k ≤ (t.takeWhile Char.isDigit).length)

/-- Pattern `-\d{13,}`: a hyphen followed by at least 13 decimal digits. -/
def hasTimestampSuffix (l : List Char) : Bool :=
  l.tails.any (fun t =>
    match t with
    | '-' :: r => 13 ≤ (r.takeWhile Char.isDigit).length
    | _ => false)

/-- A hex digit in the sense of `/[a-f0-9]/i`. -/
def isHexChar (c : Char) : Bool :=
  c.isDigit || ('a' ≤ c && c ≤ 'f') || ('A' ≤ c && c ≤ 'F')

/-- `/^[a-f0-9]{8,}/i`: the string starts with at least 8 hex characters. -/
def hasHashPrefix (l : List Char) : Bool :=
  8 ≤ l.length && (l.take 8).all isHexChar

/-- `SelectorGenerator.isDynamicId`. -/
def isDynamicId (id : String) : Bool :=
  hasFrameworkPrefix id || hasDigitRun 6 id.data ||
    hasTimestampSuffix id.data || hasHashPrefix id.data

/-- `isDynamicClass` pattern `/^(css-|jss-)/i`. -/
def hasCssInJsPrefix (s : String) : Bool :=
  let l := (lowerStr s).data
  "css-".data.isPrefixOf l || "jss-".data.isPrefixOf l

/-- `/^_[a-f0-9]+/i`: an underscore followed by at least one hex character. -/
def hasUnderscoreHashPrefix (l : List Char) : Bool :=
  match l with
  | '_' :: c :: _ => isHexChar c
  | _ => false

/-- `SelectorGenerator.isDynamicClass`. -/
def isDynamicClass (cls : String) : Bool :=
  hasCssInJsPrefix cls || hasUnderscoreHashPrefix cls.data || hasDigitRun 5 cls.data

/-- `SelectorGenerator.generateIdSelector`. -/
def generateIdSelector (d : ElemData) : Option String :=
  if d.idAttr = "" then none
  else if isDynamicId d.idAttr then none
  else some d.idAttr

/-- `SelectorGenerator.generateDataTestIdSelector`
(`getAttribute('data-testid') || undefined`: an empty attribute value is
also turned into `undefined`). -/
def generateDataTestIdSelector (d : ElemData) : Option String :=
  match d.dataTestId with
  | some s => if s = "" then none else some s
  | none => none

/-- `SelectorGenerator.generateAriaLabelSelector`. -/
def generateAriaLabelSelector (d : ElemData) : Option String :=
  match d.ariaLabel with
  | some s => if s = "" then none else some s
  | none => none

/-- `SelectorGenerator.generateNameSelector` (input and select elements
only; an empty `name` property is turned into `undefined`). -/
def generateNameSelector (d : ElemData) : Option String :=
  if d.isInput || d.isSelect then
    if d.nameAttr = "" then none else some d.nameAttr
  else none

/-- `SelectorGenerator.getElementSelectorPart`. -/
def getElementSelectorPart (d : ElemData) : String :=
  let tagName := lowerStr d.tag
  if d.idAttr ≠ "" && !isDynamicId d.idAttr then
    tagName ++ "#" ++ cssEscape d.idAttr
  else
    let classes := (d.classes.filter (fun cls => !isDynamicClass cls)).take 2
    if classes.length > 0 then
      tagName ++ "." ++ String.intercalate "." (classes.map cssEscape)
    else tagName

/-- The ancestor part of `generateCssSelector`: walk the parent chain while
a parent exists, the depth bound is not reached and the parent is not
`document.body`; each visited parent contributes `getElementSelectorPart`.
Parts are returned innermost-ancestor first (they are prepended by the
source loop, so the caller reverses them). -/
def cssAncestorParts (maxDepth : Nat) : List Frame → Nat → List String
  | [], _ => []
  | f :: rest, depth =>
    if depth < maxDepth && f.parent.tag ≠ "BODY" then
      getElementSelectorPart f.parent :: cssAncestorParts maxDepth rest (depth + 1)
    else []

/-- `SelectorGenerator.generateCssSelector`. -/
def generateCssSelector (cfg : SelectorConfig) (n : DomNode) : String :=
  let tagPart := lowerStr n.data.tag
  let typePart :=
    if n.data.isInput && n.data.inputType ≠ "" then
      "[type=\"" ++ n.data.inputType ++ "\"]"
    else ""
  let classes := (n.data.classes.filter (fun cls => !isDynamicClass cls)).take 3
  let basePart :=
    if classes.length > 0 then
      tagPart ++ String.join (classes.map (fun cls => "." ++ cssEscape cls)) ++ typePart
    else tagPart ++ typePart
  let ancestors := (cssAncestorParts cfg.maxCssDepth n.frames 0).reverse
  String.intercalate " > " (ancestors ++ [basePart])

/-- `SelectorGenerator.generateTextSelector`. -/
def generateTextSelector (d : ElemData) : Option String × Option String :=
  let text := jsTrim d.text
  if text = "" then (none, none)
  else if text.length ≤ 50 then (some text, none)
  else (none, some (String.mk (text.data.take 30)))

/-- One-based index of the node among its same-tag siblings
(`siblings.filter(sameTag).indexOf(element) + 1`; element identity is
modelled by the stored sibling index). -/
def sameTagIndex (f : Frame) (tag : String) : Nat :=
  ((f.siblings.take f.selfIdx).filter (fun e => e.tag = tag)).length + 1

/-- The name / class / sibling-index fallbacks of `generateRelativeXPath`
(reached when neither the id nor the data-testid branch returned). -/
def relativeXPathRest (n : DomNode) (tagName : String) : String :=
  if n.data.isInput && n.data.nameAttr ≠ "" then
    "//" ++ tagName ++ "[@name=\"" ++ n.data.nameAttr ++ "\"]"
  else
    let classConds :=
      if n.data.classes.length > 0 then
        String.intercalate " and "
          (((n.data.classes.filter (fun cls => !isDynamicClass cls)).take 2).map
            (fun cls => "contains(@class, \"" ++ cls ++ "\")"))
      else ""
    if classConds ≠ "" then "//" ++ tagName ++ "[" ++ classConds ++ "]"
    else
      let index :=
        match n.frames.head? with
        | some f => sameTagIndex f n.data.tag
        | none => 0
      "//" ++ tagName ++ "[" ++ String.mk (decRepr index) ++ "]"

/-- `SelectorGenerator.generateRelativeXPath`. -/
def generateRelativeXPath (n : DomNode) : String :=
  let tagName := lowerStr n.data.tag
  if n.data.idAttr ≠ "" && !isDynamicId n.data.idAttr then
    "//" ++ tagName ++ "[@id=\"" ++ n.data.idAttr ++ "\"]"
  else match n.data.dataTestId with
  | some dt =>
    if dt ≠ "" then "//" ++ tagName ++ "[@data-testid=\"" ++ dt ++ "\"]"
    else relativeXPathRest n tagName
  | none => relativeXPathRest n tagName

/-- One indexed segment of the absolute XPath. -/
def xpathSeg (d : ElemData) (idx : Nat) : String :=
  lowerStr d.tag ++ "[" ++ String.mk (decRepr idx) ++ "]"

/-- Segment list of `generateAbsoluteXPath`: walk up from the node until
`document.documentElement`, prepending `tag[same-tag-1-based-index]` per
element.  A node with no parent element contributes index 0 (`indexOf` on
the empty sibling list returns -1, plus 1). -/
def absXPathParts : ElemData → List Frame → List String
  | d, fs =>
    if d.tag = "HTML" then []
    else match fs with
      | [] => [xpathSeg d 0]
      | f :: rest => absXPathParts f.parent rest ++ [xpathSeg d (sameTagIndex f d.tag)]

/-- `SelectorGenerator.generateAbsoluteXPath`. -/
def generateAbsoluteXPath (n : DomNode) : String :=
  "/html/" ++ String.intercalate "/" (absXPathParts n.data n.frames)

/-- `SelectorGenerator.generatePositionSelector`. -/
def generatePositionSelector (n : DomNode) : Option (String × Nat) :=
  match n.frames.head? with
  | none => none
  | some f =>
    let parent := getElementSelectorPart f.parent
    if parent = "" then none else some (parent, f.selfIdx)

/-- Truthiness of an optional string field (`undefined` and the empty string
are both falsy in the source's `if (candidate)` checks). -/
def optTruthy : Option String → Bool
  | some s => s ≠ ""
  | none => false

/-- `SelectorGenerator.generateSelectors`: every candidate is computed, the
populated ones are stored and their kinds pushed onto `priority` in the
fixed source order. -/
def generateSelectors (cfg : SelectorConfig) (n : DomNode) : SelectorStrategy :=
  let idc := generateIdSelector n.data
  let dt := generateDataTestIdSelector n.data
  let aria := generateAriaLabelSelector n.data
  let nm := generateNameSelector n.data
  let css := generateCssSelector cfg n
  let ts := generateTextSelector n.data
  let xp := generateRelativeXPath n
  let xpa := generateAbsoluteXPath n
  let pos := generatePositionSelector n
  { id := if optTruthy idc then idc else none
    dataTestId := if optTruthy dt then dt else none
    ariaLabel := if optTruthy aria then aria else none
    name := if optTruthy nm then nm else none
    css := if css ≠ "" then some css else none
    text := if optTruthy ts.1 then ts.1 else none
    textContains := if optTruthy ts.1 then none else if optTruthy ts.2 then ts.2 else none
    xpath := if cfg.includeXPath && xp ≠ "" then some xp else none
    xpathAbsolute := if cfg.includeXPath && xpa ≠ "" then some xpa else none
    position := if cfg.includePosition then pos else none
    priority :=
      (if optTruthy idc then [SelectorType.id] else []) ++
      (if optTruthy dt then [SelectorType.dataTestId] else []) ++
      (if optTruthy aria then [SelectorType.ariaLabel] else []) ++
      (if optTruthy nm then [SelectorType.name] else []) ++
      (if css ≠ "" then [SelectorType.css] else []) ++
      (if optTruthy ts.1 then [SelectorType.text]
        else if optTruthy ts.2 then [SelectorType.textContains] else []) ++
      (if cfg.includeXPath then
        (if xp ≠ "" then [SelectorType.xpath] else []) ++
        (if xpa ≠ "" then [SelectorType.xpathAbsolute] else [])
      else []) ++
      (if cfg.includePosition then
        (match pos with | some _ => [SelectorType.position] | none => [])
      else []) }

/-! ## Actions and recordings (`src/types`, flattened) -/

/-- One captured action.  The TS sources use a union of per-type records; the
embedding keeps a single flat record (the validator casts the union the same
way).  `value = none` models an `undefined`/`null` input value; `fromUrl` and
`toUrl` are the navigation payload (empty string when absent, matching the
falsy checks of the validator). -/
structure Action where
  id : String := ""
  type : String := ""
  timestamp : Int := 0
  url : String := ""
  selector : Option SelectorStrategy := none
  tagName : String := ""
  value : Option String := none
  inputType : String := ""
  isSensitive : Bool := false
  coordinates : Option (Int × Int) := none
  clickCount : Nat := 0
  fromUrl : String := ""
  toUrl : String := ""
deriving DecidableEq, Repr

/-- Viewport dimensions (JS numbers, modelled as integers). -/
structure Viewport where
  width : Int
  height : Int
deriving DecidableEq, Repr

/-- The finished recording artifact (`Recording` in `src/types`).
`endTime = ""` models an absent end time (the validator only checks it when
truthy); `viewport = none` models a missing viewport object. -/
structure Recording where
  id : String := ""
  version : String := ""
  testName : String := ""
  url : String := ""
  startTime : String := ""
  endTime : String := ""
  viewport : Option Viewport := none
  userAgent : String := ""
  actions : List Action := []
deriving DecidableEq, Repr

/-! ## Sanitization pipeline (`src/utils/sanitizer.ts`) -/

/-- `maskPassword`: one bullet per character. -/
def maskPassword (value : String) : String := repeatChar '•' value.length

/-- `maskCreditCard`: keep the last 4 characters, replace every digit before
them with `*` (separators are preserved by the `/\d/g` replacement). -/
def maskCreditCard (value : String) : String :=
  if value.length ≤ 4 then value
  else
    let last4 := String.mk (value.data.drop (value.length - 4))
    let masked := String.mk
      ((value.data.take (value.length - 4)).map (fun c => if c.isDigit then '*' else c))
    masked ++ last4

/-- `maskEmail`: show the first 2 characters of the local part, one bullet
per remaining local-part character, keep the domain (from the first `@`).
`indexOf` returning -1 (no `@`) satisfies `atIndex <= 2` and leaves the
value unchanged. -/
def maskEmail (value : String) : String :=
  match value.data.findIdx? (· = '@') with
  | none => value
  | some atIndex =>
    if atIndex ≤ 2 then value
    else
      let username := value.data.take atIndex
      let domain := value.data.drop atIndex
      String.mk (username.take 2) ++ repeatChar '•' (username.length - 2) ++ String.mk domain

/-- The fixed pattern sets of `isSensitiveField`, concatenated in source
order (password, card, CVV, SSN, PIN families). -/
def sensitivePatterns : List String :=
  ["password", "passwd", "pwd", "pass", "passphrase",
   "card", "cc-number", "cardnumber", "card_number", "creditcard", "credit-card",
   "cvv", "cvc", "csc", "security-code", "security_code", "card-code",
   "ssn", "social-security", "social_security",
   "pin", "pin-code", "pincode"]

/-- `isSensitiveField(type, inputType, name, id)`. -/
def isSensitiveField (ty inputTy nm idv : String) : Bool :=
  if ty = "password" || inputTy = "password" then true
  else
    let combined := lowerStr nm ++ " " ++ lowerStr idv
    sensitivePatterns.any (fun p => strIncludes combined p)

/-- The card-number value test `/^\d{13,19}$/.test(value.replace(/[\s-]/g, ''))`. -/
def cardNumberValueTest (value : String) : Bool :=
  let stripped := value.data.filter (fun c => !(isJsSpace c || c = '-'))
  stripped.all Char.isDigit && 13 ≤ stripped.length && stripped.length ≤ 19

/-- `sanitizeValue(value, type, name, id)`. -/
def sanitizeValue (value ty nm idv : String) : String :=
  if !isSensitiveField ty ty nm idv then
    if ty = "email" && strIncludes value "@" then maskEmail value else value
  else
    let combined := lowerStr nm ++ " " ++ lowerStr idv
    if strIncludes combined "card" || strIncludes combined "cc-number"
        || cardNumberValueTest value then
      maskCreditCard value
    else maskPassword value

/-- `sanitizeAction`: only `input`-typed actions flagged `isSensitive` are
rewritten; the field name / id are read from the action's selector
candidates (`selector.name || ''`, `selector.id || ''`). -/
def sanitizeAction (a : Action) : Action :=
  if a.type ≠ "input" then a
  else if !a.isSensitive then a
  else
    let nm := (a.selector.bind SelectorStrategy.name).getD ""
    let idv := (a.selector.bind SelectorStrategy.id).getD ""
    { a with value := some (sanitizeValue (a.value.getD "") a.inputType nm idv) }

/-- `sanitizeRecording`. -/
def sanitizeRecording (r : Recording) : Recording :=
  { r with actions := r.actions.map sanitizeAction }

/-! ## Recording validator -/

/-- A field-scoped validation error. -/
structure ValidationError where
  field : String
  message : String
deriving DecidableEq, Repr

/-- Validation outcome: `isValid` plus the accumulated error list. -/
structure ValidationResult where
  isValid : Bool
  errors : List ValidationError
deriving DecidableEq, Repr

/-- The TS property-key spelling of a selector kind (used in the
`selector.<key>` error fields). -/
def selTypeKey : SelectorType → String
  | .id => "id" | .dataTestId => "dataTestId" | .ariaLabel => "ariaLabel"
  | .name => "name" | .css => "css" | .text => "text"
  | .textContains => "textContains" | .xpath => "xpath"
  | .xpathAbsolute => "xpathAbsolute" | .position => "position"

/-- The validator's per-key lookup check: a `priority` entry passes unless
its candidate is falsy, or is a non-array object (which the `position`
candidate always is, so a `position` entry always fails this check). -/
def selectorKeyOk (sel : SelectorStrategy) : SelectorType → Bool
  | .id => optTruthy sel.id
  | .dataTestId => optTruthy sel.dataTestId
  | .ariaLabel => optTruthy sel.ariaLabel
  | .name => optTruthy sel.name
  | .css => optTruthy sel.css
  | .text => optTruthy sel.text
  | .textContains => optTruthy sel.textContains
  | .xpath => optTruthy sel.xpath
  | .xpathAbsolute => optTruthy sel.xpathAbsolute
  | .position => false

/-- `hasAnySelector` of `validateSelector`: some candidate key other than
`priority` holds a truthy value (the `position` object is truthy). -/
def hasAnySelector (sel : SelectorStrategy) : Bool :=
  optTruthy sel.id || optTruthy sel.dataTestId || optTruthy sel.ariaLabel ||
    optTruthy sel.name || optTruthy sel.css || optTruthy sel.text ||
    optTruthy sel.textContains || optTruthy sel.xpath ||
    optTruthy sel.xpathAbsolute || sel.position.isSome

/-- `validateSelector`. -/
def validateSelector (sel : SelectorStrategy) : ValidationResult :=
  let priorityErrs :=
    if sel.priority.length = 0 then
      [{ field := "selector.priority", message := "Priority array cannot be empty"
         : ValidationError }]
    else []
  let refErrs := (sel.priority.map (fun key =>
    if !selectorKeyOk sel key then
      [{ field := "selector." ++ selTypeKey key,
         message := "Priority references \"" ++ selTypeKey key
           ++ "\" but selector is not defined" : ValidationError }]
    else [])).flatten
  let anyErrs :=
    if !hasAnySelector sel then
      [{ field := "selector", message := "At least one selector must be provided"
         : ValidationError }]
    else []
  let errors := priorityErrs ++ refErrs ++ anyErrs
  { isValid := errors.length = 0, errors := errors }

/-- The type-specific part of `validateAction` (the `switch` statement). -/
def actionTypeErrs (a : Action) : List ValidationError :=
  if a.type = "click" then
    (match a.selector with
     | none => [{ field := "action.selector", message := "Click action must have a selector" }]
     | some sel => (validateSelector sel).errors) ++
    (if a.tagName = "" then
      [{ field := "action.tagName", message := "Click action must have a tagName"
         : ValidationError }]
     else []) ++
    (if a.coordinates.isNone then
      [{ field := "action.coordinates", message := "Click action must have coordinates"
         : ValidationError }]
     else [])
  else if a.type = "input" then
    (match a.selector with
     | none => [{ field := "action.selector", message := "Input action must have a selector" }]
     | some sel => (validateSelector sel).errors) ++
    (if a.value.isNone then
      [{ field := "action.value", message := "Input action must have a value"
         : ValidationError }]
     else []) ++
    (if a.inputType = "" then
      [{ field := "action.inputType", message := "Input action must have an inputType"
         : ValidationError }]
     else [])
  else if a.type = "navigation" then
    (if a.fromUrl = "" then
      [{ field := "action.from", message := "Navigation action must have a \"from\" URL"
         : ValidationError }]
     else []) ++
    (if a.toUrl = "" then
      [{ field := "action.to", message := "Navigation action must have a \"to\" URL"
         : ValidationError }]
     else [])
  else []

/-- `validateAction`. -/
def validateAction (a : Action) : ValidationResult :=
  let errors :=
    (if a.id = "" then
      [{ field := "action.id", message := "Action ID is required" : ValidationError }]
     else []) ++
    (if a.type = "" then
      [{ field := "action.type", message := "Action type is required" : ValidationError }]
     else []) ++
    (if a.timestamp < 0 then
      [{ field := "action.timestamp", message := "Timestamp must be a positive number"
         : ValidationError }]
     else []) ++
    (if a.url = "" then
      [{ field := "action.url", message := "Action URL is required" : ValidationError }]
     else []) ++
    actionTypeErrs a
  { isValid := errors.length = 0, errors := errors }

/-- Models the WHATWG `new URL(s)` constructor succeeding: the string starts
with a letters-only scheme followed by a colon (so bare words such as
`unknown` are rejected, scheme-qualified strings such as
`https://example.com` are accepted). -/
def urlParses (s : String) : Bool :=
  let scheme := s.data.takeWhile Char.isAlpha
  scheme.length > 0 && (s.data.drop scheme.length).head? = some ':'

/-- Models `!isNaN(new Date(s).getTime())` for the ISO-8601 strings the
extension produces: the string starts with a `YYYY-MM-DD` shape. -/
def dateParses (s : String) : Bool :=
  match s.data with
  | y1 :: y2 :: y3 :: y4 :: '-' :: m1 :: m2 :: '-' :: d1 :: d2 :: _ =>
    y1.isDigit && y2.isDigit && y3.isDigit && y4.isDigit &&
      m1.isDigit && m2.isDigit && d1.isDigit && d2.isDigit
  | _ => false

/-- `validateRecording`: the required-id check. -/
def recIdErrs (r : Recording) : List ValidationError :=
  if r.id = "" then [{ field := "recording.id", message := "Recording ID is required" }] else []

/-- `validateRecording`: the schema-version check. -/
def recVersionErrs (r : Recording) : List ValidationError :=
  if r.version = "" then
    [{ field := "recording.version", message := "Schema version is required" }]
  else []

/-- `validateRecording`: the test-name check. -/
def recTestNameErrs (r : Recording) : List ValidationError :=
  if r.testName = "" || jsTrim r.testName = "" then
    [{ field := "recording.testName", message := "Test name cannot be empty" }]
  else []

/-- `validateRecording`: the URL checks (required, then parseable). -/
def recUrlErrs (r : Recording) : List ValidationError :=
  if r.url = "" then [{ field := "recording.url", message := "Recording URL is required" }]
  else if !urlParses r.url then
    [{ field := "recording.url", message := "Invalid URL format" }]
  else []

/-- `validateRecording`: the start-time checks. -/
def recStartTimeErrs (r : Recording) : List ValidationError :=
  if r.startTime = "" then
    [{ field := "recording.startTime", message := "Start time is required" }]
  else if !dateParses r.startTime then
    [{ field := "recording.startTime", message := "Start time must be valid ISO 8601 format" }]
  else []

/-- `validateRecording`: the end-time check (only when an end time is set). -/
def recEndTimeErrs (r : Recording) : List ValidationError :=
  if r.endTime ≠ "" && !dateParses r.endTime then
    [{ field := "recording.endTime", message := "End time must be valid ISO 8601 format" }]
  else []

/-- `validateRecording`: the viewport checks (present, then positive
dimensions; the `typeof` number checks always pass in the embedding). -/
def recViewportErrs (r : Recording) : List ValidationError :=
  match r.viewport with
  | none => [{ field := "recording.viewport", message := "Viewport is required" }]
  | some v =>
    if v.width ≤ 0 || v.height ≤ 0 then
      [{ field := "recording.viewport",
         message := "Viewport width and height must be positive numbers" }]
    else []

/-- `validateRecording`: the user-agent check. -/
def recUserAgentErrs (r : Recording) : List ValidationError :=
  if r.userAgent = "" then
    [{ field := "recording.userAgent", message := "User agent is required" }]
  else []

/-- `validateRecording`: per-action errors, each re-scoped under
`actions[i].`; the `Array.isArray` guard always passes in the embedding. -/
def recActionsErrsAux : Nat → List Action → List ValidationError
  | _, [] => []
  | i, a :: rest =>
    let res := validateAction a
    (if !res.isValid then
      res.errors.map (fun e =>
        { field := "actions[" ++ String.mk (decRepr i) ++ "]." ++ e.field,
          message := e.message })
     else []) ++ recActionsErrsAux (i + 1) rest

/-- `validateRecording`: the actions block. -/
def recActionsErrs (r : Recording) : List ValidationError :=
  recActionsErrsAux 0 r.actions

/-- `validateRecording`: all structural checks run, their errors accumulate
in source order, and validation never throws (it is a total function). -/
def validateRecording (r : Recording) : ValidationResult :=
  let errors :=
    recIdErrs r ++ recVersionErrs r ++ recTestNameErrs r ++ recUrlErrs r ++
      recStartTimeErrs r ++ recEndTimeErrs r ++ recViewportErrs r ++
      recUserAgentErrs r ++ recActionsErrs r
  { isValid := errors.length = 0, errors := errors }

/-! ## Session coordinator (background service worker) -/

/-- The background script's global state (`BackgroundState`).  The
`metadata` field (only ever set to `null` and broadcast) and the polling
interval handle (observability only, never a source of truth for merges)
are not part of the embedding. -/
structure BGState where
  isRecording : Bool := false
  isPaused : Bool := false
  testName : Option String := none
  currentTabId : Option Nat := none
  startTime : Option Nat := none
  accumulatedActions : List Action := []
  actionCache : List Action := []
  actionCounter : Nat := 0
deriving DecidableEq, Repr

/-- `resetState`: the idle literal (all fields falsy / empty / zero). -/
def resetState : BGState := {}

/-- The initial `state` literal of the background script (identical to the
reset literal). -/
def initialState : BGState := {}

/-- JS falsiness of an optional string (`null` and the empty string). -/
def optStrFalsy : Option String → Bool
  | none => true
  | some s => s = ""

/-- JS falsiness of an optional number (`null` and `0`). -/
def optNatFalsy : Option Nat → Bool
  | none => true
  | some n => n = 0

/-- `handleSyncAction(payload)`: while a recording is active and a payload
is present, increment the global counter, overwrite the payload's id with
`act_` + the zero-padded counter, and append the renumbered action to the
`saveaction_current_actions` storage key (an absent key reads as `[]`).
Otherwise the request succeeds without touching anything.  The result is
(new state, new storage value, success flag). -/
def handleSyncAction (st : BGState) (store : Option (List Action))
    (payload : Option Action) : BGState × Option (List Action) × Bool :=
  match payload with
  | none => (st, store, true)
  | some a =>
    if !st.isRecording then (st, store, true)
    else
      let c := st.actionCounter + 1
      let a' := { a with id := mkActId c }
      ({ st with actionCounter := c }, some (store.getD [] ++ [a']), true)

/-- The merge step of the `chrome.tabs.onUpdated` listener (navigation
start): add exactly the freshly-read current-page actions whose timestamp
is not already present among the accumulated actions. -/
def mergeNewActions (acc cache : List Action) : List Action :=
  if cache.length > 0 then
    let existingTimestamps := acc.map (fun a => a.timestamp)
    let newActions := cache.filter (fun a => !existingTimestamps.contains a.timestamp)
    if newActions.length > 0 then acc ++ newActions else acc
  else acc

/-- The `chrome.tabs.onUpdated` listener body for a `loading` status change
with a URL on the recording tab: read the authoritative current-page
actions from storage, merge them into `accumulatedActions` (deduplicating
by exact timestamp), clear the in-memory cache and remove the storage key.
The listener's guard (recording tab, `isRecording`) is applied at the use
sites. -/
def onNavigationStart (st : BGState) (store : Option (List Action)) :
    BGState × Option (List Action) :=
  let cache := store.getD []
  ({ st with accumulatedActions := mergeNewActions st.accumulatedActions cache,
             actionCache := [] }, none)

/-- `handleSaveCurrentState`: ask the live page for its actions and append
them (without deduplication) to `accumulatedActions`; an unreachable page
or an invalid response is swallowed (`contentActions = none`).  Always
reports success. -/
def handleSaveCurrentState (st : BGState) (contentActions : Option (List Action)) :
    BGState × Bool :=
  if !st.isRecording then (st, true)
  else match st.currentTabId with
  | none => (st, true)
  | some _ =>
    match contentActions with
    | none => (st, true)
    | some acts =>
      if acts.length > 0 then
        ({ st with accumulatedActions := st.accumulatedActions ++ acts }, true)
      else (st, true)

/-- Outcome of a lifecycle operation: the reported state name, or an error
message (the embedding keeps the leading fixed part of the message). -/
inductive OpResult where
  | ok (stateName : String)
  | err (msg : String)
deriving DecidableEq, Repr

/-- `handleStartRecording`: fails without touching state when a recording
is already in progress or no usable active tab exists (`activeTab = none`
covers both the empty query result and the missing-id branch, which also
precede any mutation); otherwise records the session metadata and asks the
page to start (`delivered = false` models a failed
`chrome.tabs.sendMessage`, which resets the state). -/
def handleStartRecording (st : BGState) (testName : String) (activeTab : Option Nat)
    (delivered : Bool) (now : Nat) : BGState × OpResult :=
  if st.isRecording then (st, .err "Recording is already in progress")
  else match activeTab with
  | none => (st, .err "No active tab found")
  | some tabId =>
    let st1 := { st with
      isRecording := true
      isPaused := false
      testName := some testName
      currentTabId := some tabId
      startTime := some now }
    if delivered then (st1, .ok "recording")
    else (resetState, .err "Failed to start recording")

/-- `handlePauseRecording`: phase and tab guards fail without any state
change; a failed message to the page (`delivered = false`) also leaves the
state (in particular `isPaused`) unchanged. -/
def handlePauseRecording (st : BGState) (delivered : Bool) : BGState × OpResult :=
  if !st.isRecording then (st, .err "No active recording to pause")
  else if st.isPaused then (st, .err "Recording is already paused")
  else match st.currentTabId with
  | none => (st, .err "No active tab for recording")
  | some _ =>
    if delivered then ({ st with isPaused := true }, .ok "paused")
    else (st, .err "Failed to pause recording")

/-- `handleResumeRecording` (mirror image of pause). -/
def handleResumeRecording (st : BGState) (delivered : Bool) : BGState × OpResult :=
  if !st.isRecording then (st, .err "No active recording to resume")
  else if !st.isPaused then (st, .err "Recording is not paused")
  else match st.currentTabId with
  | none => (st, .err "No active tab for recording")
  | some _ =>
    if delivered then ({ st with isPaused := false }, .ok "recording")
    else (st, .err "Failed to resume recording")

/-- Stable sort by timestamp: models
`actions.sort((a, b) => a.timestamp - b.timestamp)` (JS sort is stable). -/
def sortByTimestamp (l : List Action) : List Action :=
  l.mergeSort (fun a b => a.timestamp ≤ b.timestamp)

/-- Models `new Date(ms).toISOString()`.  The calendar computation is
abstracted: the model renders the date part as the epoch day followed by
the millisecond count; what the development relies on is that the output
is ISO-8601-shaped (accepted by `dateParses`) and determined by `ms`. -/
def toISOString (ms : Nat) : String :=
  "1970-01-01T" ++ String.mk (decRepr ms) ++ "Z"

/-- Outcome of `handleStopRecording`. -/
inductive StopResult where
  | ok (r : Recording)
  | err (msg : String)
deriving DecidableEq, Repr

/-- `handleStopRecording`.  Inputs: the state, the
`saveaction_current_actions` storage value, the content script's
`STOP_RECORDING` response (`none` = unreachable page or invalid payload),
the recording tab's URL (`none` = `chrome.tabs.get` threw, read as
`"unknown"`), and `Date.now()`.  Output: (new state, recording passed to
`saveRecording` if any, response).  Content path: the returned recording's
actions are replaced by the storage actions and, only when accumulated
actions exist, merged with them and re-sorted.  Fallback path: a recording
is built from background state alone, always sorted.  No path consults the
recording validator. -/
def handleStopRecording (st : BGState) (store : Option (List Action))
    (contentResp : Option Recording) (tabUrl : Option String) (now : Nat) :
    BGState × Option Recording × StopResult :=
  if !st.isRecording then (st, none, .err "No active recording")
  else match st.currentTabId with
  | none => (resetState, none, .err "No active tab for recording")
  | some _ =>
    let currentPageActions := store.getD []
    let viaContent : Option Recording :=
      match contentResp with
      | none => none
      | some rec0 =>
        let rec1 := { rec0 with actions := currentPageActions }
        if rec1.id ≠ "" && rec1.testName ≠ "" && rec1.startTime ≠ "" then
          some (if st.accumulatedActions.length > 0 then
              { rec1 with
                actions := sortByTimestamp (st.accumulatedActions ++ currentPageActions) }
            else rec1)
        else none
    match viaContent with
    | some rec2 => (resetState, some rec2, .ok rec2)
    | none =>
      if optStrFalsy st.testName || optNatFalsy st.startTime then
        (resetState, none, .err "Failed to stop recording: Missing recording metadata")
      else
        let rec3 : Recording :=
          { id := "rec_" ++ String.mk (decRepr now),
            version := "1.0.0",
            testName := st.testName.getD "",
            url := tabUrl.getD "unknown",
            startTime := toISOString (st.startTime.getD 0),
            endTime := toISOString now,
            viewport := some { width := 1920, height := 1080 },
            userAgent := "Mozilla/5.0 (Windows NT 10.0; Win64; x64) AppleWebKit/537.36",
            actions := sortByTimestamp (st.accumulatedActions ++ currentPageActions) }
        (resetState, some rec3, .ok rec3)

/-! ## System traces over the coordinator -/

/-- One externally-triggered coordinator event, carrying the environment
inputs of the corresponding handler. -/
inductive SysEv where
  | evStart (testName : String) (activeTab : Option Nat) (delivered : Bool) (now : Nat)
  | evSync (payload : Option Action)
  | evSave (contentActions : Option (List Action))
  | evNav (tabId : Nat)
  | evPause (delivered : Bool)
  | evResume (delivered : Bool)
  | evStop (contentResp : Option Recording) (tabUrl : Option String) (now : Nat)
  | evTabClosed (tabId : Nat)

/-- One step of the coordinator system: the background state together with
the `saveaction_current_actions` storage value.  Note that neither
`handleStartRecording` nor `handleStopRecording` nor `resetState` touches
the storage key; only the navigation merge removes it. -/
def sysStep : BGState × Option (List Action) → SysEv → BGState × Option (List Action)
  | (st, store), .evStart tn tab d now => ((handleStartRecording st tn tab d now).1, store)
  | (st, store), .evSync p =>
    let r := handleSyncAction st store p
    (r.1, r.2.1)
  | (st, store), .evSave ca => ((handleSaveCurrentState st ca).1, store)
  | (st, store), .evNav tid =>
    if st.currentTabId = some tid && st.isRecording then onNavigationStart st store
    else (st, store)
  | (st, store), .evPause d => ((handlePauseRecording st d).1, store)
  | (st, store), .evResume d => ((handleResumeRecording st d).1, store)
  | (st, store), .evStop cr tu now => ((handleStopRecording st store cr tu now).1, store)
  | (st, store), .evTabClosed tid =>
    if st.currentTabId = some tid && st.isRecording then (resetState, store)
    else (st, store)

/-- Run a list of events from the fresh browser state (idle background
state, no storage key). -/
def runEvents (evs : List SysEv) : BGState × Option (List Action) :=
  evs.foldl sysStep (initialState, none)

/-- An event is a sync or a navigation (the events of a recording in
progress). -/
def isSyncOrNav : SysEv → Bool
  | .evSync _ => true
  | .evNav _ => true
  | _ => false

/-- Number of sync requests that carry a payload. -/
def countHandledSyncs (evs : List SysEv) : Nat :=
  evs.countP (fun ev => match ev with | .evSync (some _) => true | _ => false)

/-- The ids the coordinator assigns along an event list (instrumentation of
`handleSyncAction`: each handled sync while recording assigns
`mkActId (counter + 1)`). -/
def assignedIds : BGState × Option (List Action) → List SysEv → List String
  | _, [] => []
  | (st, store), ev :: rest =>
    (match ev with
     | .evSync (some _) => if st.isRecording then [mkActId (st.actionCounter + 1)] else []
     | _ => []) ++ assignedIds (sysStep (st, store) ev) rest

/-! ## Capture engine: click / double-click logic (`event-listener.ts`) -/

/-- The interactive target a raw event resolves to through
`findInteractiveElement` (an upward DOM walk): its reference identity and
whether `isNavigationClick` holds for it.  A raw event whose walk finds no
interactive ancestor resolves to `none`. -/
structure ClickTarget where
  ident : Nat
  nav : Bool
deriving DecidableEq, Repr

/-- The `EventListener` fields the click path reads and writes
(`lastClickTarget`, `lastClickTime`, `actionSequence`); targets are stored
by identity. -/
structure ELState where
  lastClickTarget : Option Nat := none
  lastClickTime : Nat := 0
  actionSequence : Nat := 0
deriving DecidableEq, Repr

/-- The click-relevant projection of the `ClickAction` built by
`createClickAction`: its local sequence number, its `type` (always the
literal `"click"` in the source), its `clickCount` and its timestamp.
Selector, coordinates, button and modifiers do not influence the
double-click logic and are omitted from the projection. -/
structure EmittedClick where
  seq : Nat
  type : String
  clickCount : Nat
  timestamp : Nat
deriving DecidableEq, Repr

/-- `createClickAction`: bumps `actionSequence` and emits a `type: 'click'`
record with the given `clickCount`. -/
def createClickAction (st : ELState) (clickCount : Nat) (now : Nat) :
    ELState × EmittedClick :=
  ({ st with actionSequence := st.actionSequence + 1 },
   { seq := st.actionSequence + 1, type := "click", clickCount := clickCount,
     timestamp := now })

/-- `EventListener.onClick`: a second click on the same target within
500 ms is recognised as part of a double-click and suppressed; otherwise
one single-click action is emitted (the navigation branch also emits
exactly one action before re-triggering the click). -/
def elOnClick (st : ELState) (target : Option ClickTarget) (now : Nat) :
    ELState × List EmittedClick :=
  match target with
  | none => (st, [])
  | some tg =>
    let isDoubleClick :=
      st.lastClickTarget == some tg.ident && decide (now - st.lastClickTime < 500)
    let st1 := { st with lastClickTarget := some tg.ident, lastClickTime := now }
    if isDoubleClick then (st1, [])
    else
      let r := createClickAction st1 1 now
      (r.1, [r.2])

/-- `EventListener.onMouseDown`: emits a single-click action for every
press on a non-navigation interactive target (it neither consults nor
updates the double-click bookkeeping). -/
def elOnMouseDown (st : ELState) (target : Option ClickTarget) (now : Nat) :
    ELState × List EmittedClick :=
  match target with
  | none => (st, [])
  | some tg =>
    if tg.nav then (st, [])
    else
      let r := createClickAction st 1 now
      (r.1, [r.2])

/-- `EventListener.onDoubleClick`: emits one action with `clickCount = 2`
(and `type: 'click'`, via `createClickAction`). -/
def elOnDoubleClick (st : ELState) (target : Option ClickTarget) (now : Nat) :
    ELState × List EmittedClick :=
  match target with
  | none => (st, [])
  | some tg =>
    let _ := tg
    let r := createClickAction st 2 now
    (r.1, [r.2])

/-- A raw pointer event, already resolved to its interactive target. -/
inductive RawEv where
  | mousedown (target : Option ClickTarget) (now : Nat)
  | click (target : Option ClickTarget) (now : Nat)
  | dblclick (target : Option ClickTarget) (now : Nat)

/-- Dispatch of one raw event to the corresponding handler. -/
def elStep (st : ELState) : RawEv → ELState × List EmittedClick
  | .mousedown t now => elOnMouseDown st t now
  | .click t now => elOnClick st t now
  | .dblclick t now => elOnDoubleClick st t now

/-- Process a raw event list, concatenating the emitted actions. -/
def elRun (st : ELState) : List RawEv → ELState × List EmittedClick
  | [] => (st, [])
  | ev :: rest =>
    let r := elStep st ev
    let r2 := elRun r.1 rest
    (r2.1, r.2 ++ r2.2)

/-- The DOM event order of a double click on one target: mousedown, click,
mousedown, click, dblclick (mouseups are not listened to). -/
def doubleClickGesture (tg : ClickTarget) (t0 t1 : Nat) : List RawEv :=
  [.mousedown (some tg) t0, .click (some tg) t0,
   .mousedown (some tg) t1, .click (some tg) t1,
   .dblclick (some tg) t1]

/-! ## Shared proof material -/

/-- A minimal concrete action used by the closed witnesses. -/
def sampleAction (t : Int) : Action := { timestamp := t }

/-- The navigation merge written as one append of the deduplicated cache
(collapsing the two emptiness `if`s of the source). -/
theorem mergeNewActions_eq (acc cache : List Action) :
    mergeNewActions acc cache =
      acc ++ cache.filter
        (fun a => !((acc.map (fun b => b.timestamp)).contains a.timestamp)) := by
  unfold mergeNewActions
  by_cases hc : cache.length > 0
  · simp only [hc, if_true]
    by_cases hn :
        (cache.filter
          (fun a => !((acc.map (fun b => b.timestamp)).contains a.timestamp))).length > 0
    · simp [hn]
    · have hnil :
          cache.filter
            (fun a => !((acc.map (fun b => b.timestamp)).contains a.timestamp)) = [] := by
        have := Nat.eq_zero_of_not_pos hn
        exact List.length_eq_zero.mp this
      simp [hn, hnil]
  · have hnil : cache = [] := by
      cases cache with
      | nil => rfl
      | cons c t => simp at hc
    simp [hnil]

/-- `List.contains` membership, unfolded through `elem`. -/
theorem contains_iff_mem (l : List Int) (x : Int) : l.contains x = true ↔ x ∈ l := by
  show l.elem x = true ↔ x ∈ l
  exact List.elem_iff

/-! ## Claim C2 -/

/-- C2: the navigation-start merge is deduplicating and idempotent.
(1) The merge adds exactly the cache actions whose timestamp does not
already occur among the accumulated actions.  (2) An action whose
timestamp is fresh and that was already appended once (the pre-unload
`SAVE_CURRENT_STATE` flush) ends up in the merged accumulation exactly
once, whatever the cache holds.  (3) Re-running the merge with the same
cache leaves the accumulation unchanged. -/
theorem C2_navigation_merge_dedup :
    (∀ acc cache : List Action,
      mergeNewActions acc cache =
        acc ++ cache.filter
          (fun a => !((acc.map (fun b => b.timestamp)).contains a.timestamp)))
    ∧ (∀ (acc cache : List Action) (a : Action),
      acc.countP (fun b => b.timestamp == a.timestamp) = 0 →
      (mergeNewActions (acc ++ [a]) cache).countP
        (fun b => b.timestamp == a.timestamp) = 1)
    ∧ (∀ acc cache : List Action,
      mergeNewActions (mergeNewActions acc cache) cache = mergeNewActions acc cache) := by
  refine ⟨mergeNewActions_eq, ?_, ?_⟩
  · intro acc cache a hzero
    rw [mergeNewActions_eq]
    rw [List.countP_append, List.countP_append]
    have h1 : List.countP (fun b => b.timestamp == a.timestamp) [a] = 1 := by
      simp [List.countP_cons]
    have h2 : List.countP (fun b => b.timestamp == a.timestamp)
        (cache.filter
          (fun x => !((((acc ++ [a]).map (fun b => b.timestamp)).contains x.timestamp)))) = 0 := by
      rw [List.countP_eq_zero]
      intro b hb
      rcases List.mem_filter.mp hb with ⟨_, hp⟩
      have hnc : (((acc ++ [a]).map (fun b => b.timestamp)).contains b.timestamp) = false := by
        cases hx : (((acc ++ [a]).map (fun b => b.timestamp)).contains b.timestamp) with
        | false => rfl
        | true => rw [hx] at hp; simp at hp
      have hmem : a.timestamp ∈ (acc ++ [a]).map (fun b => b.timestamp) := by
        simp
      intro hbeq
      have hts : b.timestamp = a.timestamp := by
        simpa using hbeq
      rw [← hts] at hmem
      have := (contains_iff_mem _ _).mpr hmem
      rw [this] at hnc
      cases hnc
    rw [hzero, h1, h2]
  · intro acc cache
    conv_lhs => rw [mergeNewActions_eq acc cache]
    rw [mergeNewActions_eq]
    have hnil :
        cache.filter
          (fun a =>
            !((((acc ++ cache.filter
              (fun a => !((acc.map (fun b => b.timestamp)).contains a.timestamp))).map
                (fun b => b.timestamp)).contains a.timestamp))) = [] := by
      rw [List.filter_eq_nil_iff]
      intro b hb
      simp only [Bool.not_eq_true', Bool.not_eq_false]
      apply (contains_iff_mem _ _).mpr
      rw [List.map_append, List.mem_append]
      by_cases hacc : (acc.map (fun x => x.timestamp)).contains b.timestamp = true
      · exact Or.inl ((contains_iff_mem _ _).mp hacc)
      · right
        have hbf : b ∈ cache.filter
            (fun a => !((acc.map (fun x => x.timestamp)).contains a.timestamp)) := by
          rw [List.mem_filter]
          refine ⟨hb, ?_⟩
          simp only [Bool.not_eq_true']
          exact Bool.eq_false_iff.mpr hacc
        exact List.mem_map_of_mem _ hbf
    rw [hnil, List.append_nil]
    conv_rhs => rw [mergeNewActions_eq acc cache]

/-- Closed instance of `C2_navigation_merge_dedup`: the duplicate-flush
scenario at concrete inputs. -/
theorem C2_navigation_merge_dedup_witness :
    (mergeNewActions ([] ++ [sampleAction 5]) [sampleAction 5]).countP
      (fun b => b.timestamp == (sampleAction 5).timestamp) = 1 :=
  C2_navigation_merge_dedup.2.1 [] [sampleAction 5] (sampleAction 5) (by decide)

/-! ## Claim C6 -/

/-- C6: phase-mismatched operations fail as errors without any state
change.  (1) `pause()` while not recording errors and leaves the state
untouched.  (2) `start()` while recording errors and leaves the state
untouched.  (3) / (4) A pause or resume whose message to the live page
fails errors and leaves the state (in particular `isPaused`) untouched. -/
theorem C6_phase_mismatch_no_state_change :
    (∀ (st : BGState) (d : Bool), st.isRecording = false →
      handlePauseRecording st d = (st, OpResult.err "No active recording to pause"))
    ∧ (∀ (st : BGState) (tn : String) (tab : Option Nat) (d : Bool) (now : Nat),
      st.isRecording = true →
      handleStartRecording st tn tab d now =
        (st, OpResult.err "Recording is already in progress"))
    ∧ (∀ (st : BGState) (tid : Nat), st.isRecording = true → st.isPaused = false →
      st.currentTabId = some tid →
      handlePauseRecording st false = (st, OpResult.err "Failed to pause recording"))
    ∧ (∀ (st : BGState) (tid : Nat), st.isRecording = true → st.isPaused = true →
      st.currentTabId = some tid →
      handleResumeRecording st false = (st, OpResult.err "Failed to resume recording")) := by
  refine ⟨?_, ?_, ?_, ?_⟩
  · intro st d h
    simp [handlePauseRecording, h]
  · intro st tn tab d now h
    simp [handleStartRecording, h]
  · intro st tid h hp htab
    simp [handlePauseRecording, h, hp, htab]
  · intro st tid h hp htab
    simp [handleResumeRecording, h, hp, htab]

/-- A recording-in-progress state used by several closed witnesses. -/
def recordingState : BGState :=
  { isRecording := true, isPaused := false, testName := some "checkout flow",
    currentTabId := some 1, startTime := some 1000 }

/-- Closed instance of `C6_phase_mismatch_no_state_change` at concrete
states. -/
theorem C6_phase_mismatch_no_state_change_witness :
    handlePauseRecording initialState true =
      (initialState, OpResult.err "No active recording to pause")
    ∧ handleStartRecording recordingState "t" (some 1) true 7 =
      (recordingState, OpResult.err "Recording is already in progress")
    ∧ handlePauseRecording recordingState false =
      (recordingState, OpResult.err "Failed to pause recording") :=
  ⟨C6_phase_mismatch_no_state_change.1 initialState true (by decide),
   C6_phase_mismatch_no_state_change.2.1 recordingState "t" (some 1) true 7 (by decide),
   C6_phase_mismatch_no_state_change.2.2.1 recordingState 1 (by decide) (by decide) (by decide)⟩

/-! ## Claim C1 -/

/-- Along any sync/navigation event sequence processed while recording, the
assigned ids are exactly `mkActId` of the consecutive counter values: one
per handled sync, starting right after the current counter, with
navigations (page loads) contributing no id and no gap. -/
theorem assignedIds_eq : ∀ (evs : List SysEv) (st : BGState) (store : Option (List Action)),
    st.isRecording = true → (∀ ev ∈ evs, isSyncOrNav ev = true) →
    assignedIds (st, store) evs =
      (List.range' (st.actionCounter + 1) (countHandledSyncs evs)).map mkActId := by
  intro evs
  induction evs with
  | nil =>
    intro st store _ _
    simp [assignedIds, countHandledSyncs]
  | cons ev rest ih =>
    intro st store hrec hall
    have hev := hall ev (List.mem_cons_self _ _)
    have hrest : ∀ e ∈ rest, isSyncOrNav e = true :=
      fun e he => hall e (List.mem_cons_of_mem _ he)
    cases ev with
    | evSync p =>
      cases p with
      | none =>
        have hstep : sysStep (st, store) (SysEv.evSync none) = (st, store) := by
          simp [sysStep, handleSyncAction]
        simp only [assignedIds, hstep]
        rw [ih st store hrec hrest]
        simp [countHandledSyncs, List.countP_cons]
      | some a =>
        have hstep : sysStep (st, store) (SysEv.evSync (some a)) =
            ({ st with actionCounter := st.actionCounter + 1 },
             some (store.getD [] ++ [{ a with id := mkActId (st.actionCounter + 1) }])) := by
          simp [sysStep, handleSyncAction, hrec]
        simp only [assignedIds, hstep, hrec, if_true]
        rw [ih _ _ rfl hrest]
        have hcount : countHandledSyncs (SysEv.evSync (some a) :: rest) =
            countHandledSyncs rest + 1 := by
          simp [countHandledSyncs, List.countP_cons]
        rw [hcount, List.range'_succ]
        simp
    | evNav tid =>
      by_cases hc : st.currentTabId = some tid
      · have hstep : sysStep (st, store) (SysEv.evNav tid) =
            ({ st with
                accumulatedActions := mergeNewActions st.accumulatedActions (store.getD []),
                actionCache := [] }, none) := by
          simp [sysStep, hc, hrec, onNavigationStart]
        simp only [assignedIds, hstep]
        rw [ih _ _ (by simpa using hrec) hrest]
        simp [countHandledSyncs, List.countP_cons]
      · have hstep : sysStep (st, store) (SysEv.evNav tid) = (st, store) := by
          simp [sysStep, hc]
        simp only [assignedIds, hstep]
        rw [ih st store hrec hrest]
        simp [countHandledSyncs, List.countP_cons]
    | evStart tn tab d now => exact absurd hev (by simp [isSyncOrNav])
    | evSave ca => exact absurd hev (by simp [isSyncOrNav])
    | evPause d => exact absurd hev (by simp [isSyncOrNav])
    | evResume d => exact absurd hev (by simp [isSyncOrNav])
    | evStop cr tu now => exact absurd hev (by simp [isSyncOrNav])
    | evTabClosed tid => exact absurd hev (by simp [isSyncOrNav])

/-- C1: sequential id assignment.  (1) A sync handled while recording
increments the counter by one and appends exactly one action whose id is
overwritten with `mkActId` of the new counter value, the capture engine's
locally assigned id being discarded and every previously stored action
kept unchanged.  (2) `mkActId n` decodes back to `n` and pads to at least
3 digits; concrete renderings shown for 1, 12, 345 and 1234.  (3) Over any
sync/navigation sequence processed while recording, the assigned ids are
`mkActId` of consecutive counter values — strictly increasing, gap-free,
and independent of how many page loads intervene (from a fresh session the
values are 1, 2, 3, ...).  (4) The navigation merge only carries over
actions that already existed (with their ids untouched), so an id, once
assigned, never changes. -/
theorem C1_sync_ids_sequential :
    (∀ (st : BGState) (store : Option (List Action)) (a : Action),
      st.isRecording = true →
      handleSyncAction st store (some a) =
        ({ st with actionCounter := st.actionCounter + 1 },
         some (store.getD [] ++ [{ a with id := mkActId (st.actionCounter + 1) }]),
         true))
    ∧ (∀ n, actIdNum (mkActId n) = some n ∧ 3 ≤ (padStartChars 3 '0' (decRepr n)).length)
    ∧ (mkActId 1 = "act_001" ∧ mkActId 12 = "act_012" ∧ mkActId 345 = "act_345"
      ∧ mkActId 1234 = "act_1234")
    ∧ (∀ (evs : List SysEv) (st : BGState) (store : Option (List Action)),
      st.isRecording = true → (∀ ev ∈ evs, isSyncOrNav ev = true) →
      assignedIds (st, store) evs =
        (List.range' (st.actionCounter + 1) (countHandledSyncs evs)).map mkActId)
    ∧ (∀ (st : BGState) (store : Option (List Action)) (b : Action),
      b ∈ (onNavigationStart st store).1.accumulatedActions →
      b ∈ st.accumulatedActions ∨ b ∈ store.getD []) := by
  refine ⟨?_, ?_, ⟨by decide, by decide, by decide, by decide⟩, assignedIds_eq, ?_⟩
  · intro st store a hrec
    simp [handleSyncAction, hrec]
  · intro n
    exact ⟨actIdNum_mkActId n, mkActId_digits_length n⟩
  · intro st store b hb
    simp only [onNavigationStart, mergeNewActions_eq] at hb
    rcases List.mem_append.mp hb with h | h
    · exact Or.inl h
    · exact Or.inr (List.mem_of_mem_filter h)

/-- Closed instance of `C1_sync_ids_sequential`: one sync from a fresh
recording state stores `act_001`, and a sync/navigate/sync run assigns
`act_001, act_002`. -/
theorem C1_sync_ids_sequential_witness :
    handleSyncAction recordingState none (some (sampleAction 3)) =
      ({ recordingState with actionCounter := 1 },
       some [{ sampleAction 3 with id := mkActId 1 }], true)
    ∧ assignedIds (recordingState, none)
        [SysEv.evSync (some (sampleAction 3)), SysEv.evNav 1,
         SysEv.evSync (some (sampleAction 4))] =
      ["act_001", "act_002"] := by
  constructor
  · simpa using
      C1_sync_ids_sequential.1 recordingState none (sampleAction 3) (by decide)
  · have := C1_sync_ids_sequential.2.2.2.1
      [SysEv.evSync (some (sampleAction 3)), SysEv.evNav 1,
       SysEv.evSync (some (sampleAction 4))] recordingState none (by decide) (by decide)
    rw [this]
    decide

/-! ## Claim C10 -/

/-- The field-scoped error the validator pushes for a non-positive
viewport. -/
def viewportError : ValidationError :=
  { field := "recording.viewport",
    message := "Viewport width and height must be positive numbers" }

/-- C10: the recording validator is total (it never throws — it is a plain
function into `ValidationResult`) and accumulates field-scoped errors.  For
every recording whose viewport width or height is zero or negative, the
result is invalid, the error list contains the entry scoped to
`recording.viewport`, and the error list is exactly the concatenation of
every structural check's errors (so all other failing checks contribute
their errors alongside the viewport one). -/
theorem C10_validator_viewport_accumulates :
    ∀ (r : Recording) (v : Viewport), r.viewport = some v →
      (v.width ≤ 0 ∨ v.height ≤ 0) →
      (validateRecording r).isValid = false
      ∧ viewportError ∈ (validateRecording r).errors
      ∧ (validateRecording r).errors =
          recIdErrs r ++ recVersionErrs r ++ recTestNameErrs r ++ recUrlErrs r ++
            recStartTimeErrs r ++ recEndTimeErrs r ++ recViewportErrs r ++
            recUserAgentErrs r ++ recActionsErrs r := by
  intro r v hv hle
  have hvp : recViewportErrs r = [viewportError] := by
    have hb : (v.width ≤ 0 || v.height ≤ 0) = true := by
      rcases hle with h | h <;> simp [h]
    simp only [recViewportErrs, hv]
    simp [hb, viewportError]
  have herrs : (validateRecording r).errors =
      recIdErrs r ++ recVersionErrs r ++ recTestNameErrs r ++ recUrlErrs r ++
        recStartTimeErrs r ++ recEndTimeErrs r ++ recViewportErrs r ++
        recUserAgentErrs r ++ recActionsErrs r := rfl
  have hmem : viewportError ∈ (validateRecording r).errors := by
    rw [herrs]
    simp [hvp]
  refine ⟨?_, hmem, herrs⟩
  show decide ((validateRecording r).errors.length = 0) = false
  rw [decide_eq_false_iff_not]
  intro h0
  have hnil : (validateRecording r).errors = [] := List.length_eq_zero.mp h0
  rw [hnil] at hmem
  cases hmem

/-- A concrete recording whose viewport width is 0 and whose test name is
empty (two failing checks at once). -/
def badViewportRecording : Recording :=
  { id := "rec_1", version := "1.0.0", testName := "",
    url := "https://example.com", startTime := "2024-01-01T00:00:00.000Z",
    endTime := "", viewport := some { width := 0, height := 1080 },
    userAgent := "UA", actions := [] }

/-- Closed instance of `C10_validator_viewport_accumulates`, with the
empty-test-name error showing up alongside the viewport error. -/
theorem C10_validator_viewport_accumulates_witness :
    (validateRecording badViewportRecording).isValid = false
    ∧ viewportError ∈ (validateRecording badViewportRecording).errors
    ∧ ({ field := "recording.testName", message := "Test name cannot be empty" }
          : ValidationError) ∈ (validateRecording badViewportRecording).errors := by
  have h := C10_validator_viewport_accumulates badViewportRecording
    { width := 0, height := 1080 } rfl (Or.inl (by decide))
  exact ⟨h.1, h.2.1, by decide⟩

/-! ## Claim C7 -/

/-- A finished `input` action on a non-sensitive `type="email"` field
holding `jane.doe@example.com`. -/
def emailInputAction : Action :=
  { id := "act_local_1", type := "input", timestamp := 100,
    url := "https://example.com/form",
    selector := some { name := some "email", priority := [SelectorType.name] },
    tagName := "input", value := some "jane.doe@example.com",
    inputType := "email", isSensitive := false }

/-- Refutes C7 at a concrete input.  The pipeline leaves an email-typed
action that was not flagged sensitive completely unchanged (no masking at
all), and even where `maskEmail` does run, `jane.doe@example.com` becomes
`ja••••••@example.com` (six bullets, one per hidden local-part character),
not the claimed `ja••••••••@example.com` (eight bullets). -/
theorem C7_email_masking_counterexample :
    sanitizeAction emailInputAction = emailInputAction
    ∧ (sanitizeAction emailInputAction).value = some "jane.doe@example.com"
    ∧ maskEmail "jane.doe@example.com" = "ja••••••@example.com"
    ∧ ("ja••••••@example.com" : String) ≠ "ja••••••••@example.com" := by
  refine ⟨by decide, by decide, by decide, by decide⟩

/-- C7 (amended): (1) an `input` action not flagged sensitive passes
through `sanitizeAction` unchanged; (2) partial email masking happens in
`sanitizeValue` exactly when the re-derived field sensitivity is negative
and the value contains `@`; (3) `maskEmail` keeps the first 2 local-part
characters, emits one bullet per remaining local-part character and keeps
the domain; (4) the flagged variant of the example is masked to
`ja••••••@example.com` (six bullets). -/
theorem C7_email_masking_amended :
    (∀ a : Action, a.type = "input" → a.isSensitive = false → sanitizeAction a = a)
    ∧ (∀ value nm idv : String,
        isSensitiveField "email" "email" nm idv = false →
        strIncludes value "@" = true →
        sanitizeValue value "email" nm idv = maskEmail value)
    ∧ (∀ (value : String) (i : Nat),
        value.data.findIdx? (· = '@') = some i → 2 < i →
        maskEmail value =
          String.mk ((value.data.take i).take 2)
            ++ repeatChar '•' ((value.data.take i).length - 2)
            ++ String.mk (value.data.drop i))
    ∧ (sanitizeAction { emailInputAction with isSensitive := true }).value =
        some "ja••••••@example.com" := by
  refine ⟨?_, ?_, ?_, by decide⟩
  · intro a h1 h2
    simp [sanitizeAction, h1, h2]
  · intro v nm idv hs hat
    simp [sanitizeValue, hs, hat]
  · intro v i hf hi
    simp only [maskEmail, hf]
    have hgt : ¬ i ≤ 2 := by omega
    simp [hgt]

/-- Closed instance of `C7_email_masking_amended` at the example value. -/
theorem C7_email_masking_amended_witness :
    sanitizeAction emailInputAction = emailInputAction
    ∧ sanitizeValue "jane.doe@example.com" "email" "email" "" =
        maskEmail "jane.doe@example.com" :=
  ⟨C7_email_masking_amended.1 emailInputAction (by decide) (by decide),
   C7_email_masking_amended.2.1 "jane.doe@example.com" "email" "" (by decide) (by decide)⟩

/-! ## Claim C8 -/

/-- A non-navigation interactive target. -/
def plainTarget : ClickTarget := { ident := 7, nav := false }

/-- Refutes C8 at a concrete input: a double click on the same
non-navigation interactive target (presses at 1000 ms and 1200 ms, within
500 ms) emits three `clickCount = 1` actions (one per mousedown plus the
first click) and one `clickCount = 2` action — every one of them with
`type = "click"`.  There is no action of type `doubleclick`, and there are
two extra click actions beyond the one for the first click. -/
theorem C8_doubleclick_counterexample :
    (elRun {} (doubleClickGesture plainTarget 1000 1200)).2 =
      [{ seq := 1, type := "click", clickCount := 1, timestamp := 1000 },
       { seq := 2, type := "click", clickCount := 1, timestamp := 1000 },
       { seq := 3, type := "click", clickCount := 1, timestamp := 1200 },
       { seq := 4, type := "click", clickCount := 2, timestamp := 1200 }]
    ∧ ((elRun {} (doubleClickGesture plainTarget 1000 1200)).2.filter
        (fun e => e.type == "doubleclick")).length = 0
    ∧ ((elRun {} (doubleClickGesture plainTarget 1000 1200)).2.filter
        (fun e => e.clickCount == 1)).length = 3 := by
  refine ⟨by decide, by decide, by decide⟩

/-- C8 (amended): for a double click on the same interactive target within
500 ms, the click handler suppresses its second single-click action and
the dblclick handler emits exactly one action — but that action has
`type = "click"` with `clickCount = 2` (no `doubleclick`-typed action is
produced), and on a non-navigation target the mousedown handler emits one
further click action per press.  The full gesture thus yields
`[click cc1, click cc1, click cc1, click cc2]` on a non-navigation target
and `[click cc1, click cc2]` on a navigation target. -/
theorem C8_doubleclick_amended :
    ∀ (tg : ClickTarget) (t0 t1 : Nat), t0 ≤ t1 → t1 - t0 < 500 →
      (tg.nav = false →
        (elRun {} (doubleClickGesture tg t0 t1)).2 =
          [{ seq := 1, type := "click", clickCount := 1, timestamp := t0 },
           { seq := 2, type := "click", clickCount := 1, timestamp := t0 },
           { seq := 3, type := "click", clickCount := 1, timestamp := t1 },
           { seq := 4, type := "click", clickCount := 2, timestamp := t1 }])
      ∧ (tg.nav = true →
        (elRun {} (doubleClickGesture tg t0 t1)).2 =
          [{ seq := 1, type := "click", clickCount := 1, timestamp := t0 },
           { seq := 2, type := "click", clickCount := 2, timestamp := t1 }]) := by
  intro tg t0 t1 hle hlt
  have hdbl : ((some tg.ident : Option Nat) == some tg.ident
      && decide (t1 - t0 < 500)) = true := by
    simp [hlt]
  constructor
  · intro hnav
    simp [elRun, elStep, doubleClickGesture, elOnMouseDown, elOnClick, elOnDoubleClick,
      createClickAction, hnav, hdbl, hlt]
  · intro hnav
    simp [elRun, elStep, doubleClickGesture, elOnMouseDown, elOnClick, elOnDoubleClick,
      createClickAction, hnav, hdbl, hlt]

/-- Closed instance of `C8_doubleclick_amended` at concrete press times. -/
theorem C8_doubleclick_amended_witness :
    (elRun {} (doubleClickGesture plainTarget 1000 1200)).2 =
      [{ seq := 1, type := "click", clickCount := 1, timestamp := 1000 },
       { seq := 2, type := "click", clickCount := 1, timestamp := 1000 },
       { seq := 3, type := "click", clickCount := 1, timestamp := 1200 },
       { seq := 4, type := "click", clickCount := 2, timestamp := 1200 }] :=
  (C8_doubleclick_amended plainTarget 1000 1200 (by decide) (by decide)).1 rfl

/-! ## Stop-path helpers (shared by the claims about `stop`) -/

theorem sortByTimestamp_perm (l : List Action) : (sortByTimestamp l).Perm l :=
  List.mergeSort_perm l _

theorem sortByTimestamp_sorted (l : List Action) :
    List.Pairwise (fun a b : Action => a.timestamp ≤ b.timestamp) (sortByTimestamp l) := by
  have h := @List.sorted_mergeSort Action
    (fun a b : Action => (decide (a.timestamp ≤ b.timestamp)))
    (fun a b c hab hbc => by
      simp only [decide_eq_true_eq] at hab hbc ⊢
      omega)
    (fun a b => by
      by_cases hab : a.timestamp ≤ b.timestamp
      · simp [hab]
      · have : b.timestamp ≤ a.timestamp := by omega
        simp [this])
    l
  exact h.imp (fun hab => of_decide_eq_true hab)

theorem sortByTimestamp_nil : sortByTimestamp [] = [] :=
  (sortByTimestamp_perm []).eq_nil

/-- The recording the fallback path of `handleStopRecording` assembles. -/
def stopFallbackRecording (st : BGState) (store : Option (List Action))
    (tabUrl : Option String) (now : Nat) : Recording :=
  { id := "rec_" ++ String.mk (decRepr now),
    version := "1.0.0",
    testName := st.testName.getD "",
    url := tabUrl.getD "unknown",
    startTime := toISOString (st.startTime.getD 0),
    endTime := toISOString now,
    viewport := some { width := 1920, height := 1080 },
    userAgent := "Mozilla/5.0 (Windows NT 10.0; Win64; x64) AppleWebKit/537.36",
    actions := sortByTimestamp (st.accumulatedActions ++ store.getD []) }

/-- The fallback path of `handleStopRecording` (content script
unreachable, session metadata present): reset, persist and return the
recording assembled from background state. -/
theorem handleStop_fallback_eq (st : BGState) (store : Option (List Action))
    (tid : Nat) (tabUrl : Option String) (now : Nat)
    (hrec : st.isRecording = true) (htab : st.currentTabId = some tid)
    (htn : optStrFalsy st.testName = false) (hts : optNatFalsy st.startTime = false) :
    handleStopRecording st store none tabUrl now =
      (resetState, some (stopFallbackRecording st store tabUrl now),
       StopResult.ok (stopFallbackRecording st store tabUrl now)) := by
  simp [handleStopRecording, hrec, htab, htn, hts, stopFallbackRecording]

/-- The content path of `handleStopRecording` with accumulated actions
present: the returned recording carries the storage actions merged with the
accumulated ones and re-sorted. -/
theorem handleStop_content_eq (st : BGState) (store : Option (List Action))
    (tid : Nat) (rec0 : Recording) (tabUrl : Option String) (now : Nat)
    (hrec : st.isRecording = true) (htab : st.currentTabId = some tid)
    (hid : rec0.id ≠ "") (htn0 : rec0.testName ≠ "") (hts0 : rec0.startTime ≠ "")
    (hne : st.accumulatedActions ≠ []) :
    handleStopRecording st store (some rec0) tabUrl now =
      (resetState,
       some { rec0 with
         actions := sortByTimestamp (st.accumulatedActions ++ store.getD []) },
       StopResult.ok { rec0 with
         actions := sortByTimestamp (st.accumulatedActions ++ store.getD []) }) := by
  have hlen : 0 < st.accumulatedActions.length := List.length_pos.mpr hne
  simp [handleStopRecording, hrec, htab, hid, htn0, hts0, hlen]

/-! ## Claim C3 -/

/-- A recording-in-progress state with no accumulated actions. -/
def stopCounterState : BGState :=
  { isRecording := true, isPaused := false, testName := some "t",
    currentTabId := some 1, startTime := some 5, accumulatedActions := [] }

/-- The recording the live page hands back on `STOP_RECORDING`. -/
def contentRecording : Recording :=
  { id := "rec_99", version := "1.0.0", testName := "t",
    url := "https://example.com", startTime := "2024-01-01T00:00:00.000Z",
    endTime := "2024-01-01T00:01:00.000Z",
    viewport := some { width := 800, height := 600 }, userAgent := "UA",
    actions := [] }

/-- Refutes C3 at a concrete input: when the live page answers
`STOP_RECORDING` and `accumulatedActions` is empty, the current-page cache
is used as-is — the assembled recording keeps the storage order
`[timestamp 2, timestamp 1]`, which is not sorted ascending by timestamp
(the re-sort only runs when accumulated actions exist). -/
theorem C3_stop_sort_counterexample :
    (handleStopRecording stopCounterState (some [sampleAction 2, sampleAction 1])
        (some contentRecording) (some "https://example.com") 9).2.2 =
      StopResult.ok
        { contentRecording with actions := [sampleAction 2, sampleAction 1] }
    ∧ ¬ List.Pairwise (fun a b : Action => a.timestamp ≤ b.timestamp)
        [sampleAction 2, sampleAction 1] := by
  exact ⟨by decide, by decide⟩

/-- C3 (amended): both stop paths produce the union of accumulated and
current-page actions with each action exactly once (a permutation of their
concatenation), sorted ascending by timestamp — for the fallback path
unconditionally, and for the content path under the proviso (forced by the
counterexample) that `accumulatedActions` is non-empty; with an empty
accumulation the content path returns the current-page cache in its stored
order. -/
theorem C3_stop_sorted_union_amended :
    (∀ (st : BGState) (store : Option (List Action)) (tid : Nat)
        (tabUrl : Option String) (now : Nat),
      st.isRecording = true → st.currentTabId = some tid →
      optStrFalsy st.testName = false → optNatFalsy st.startTime = false →
      ∃ r : Recording,
        handleStopRecording st store none tabUrl now =
          (resetState, some r, StopResult.ok r)
        ∧ r.actions = sortByTimestamp (st.accumulatedActions ++ store.getD [])
        ∧ r.actions.Perm (st.accumulatedActions ++ store.getD [])
        ∧ List.Pairwise (fun a b : Action => a.timestamp ≤ b.timestamp) r.actions)
    ∧ (∀ (st : BGState) (store : Option (List Action)) (tid : Nat)
        (rec0 : Recording) (tabUrl : Option String) (now : Nat),
      st.isRecording = true → st.currentTabId = some tid →
      rec0.id ≠ "" → rec0.testName ≠ "" → rec0.startTime ≠ "" →
      st.accumulatedActions ≠ [] →
      ∃ r : Recording,
        handleStopRecording st store (some rec0) tabUrl now =
          (resetState, some r, StopResult.ok r)
        ∧ r.actions = sortByTimestamp (st.accumulatedActions ++ store.getD [])
        ∧ r.actions.Perm (st.accumulatedActions ++ store.getD [])
        ∧ List.Pairwise (fun a b : Action => a.timestamp ≤ b.timestamp) r.actions) := by
  constructor
  · intro st store tid tabUrl now hrec htab htn hts
    refine ⟨stopFallbackRecording st store tabUrl now,
      handleStop_fallback_eq st store tid tabUrl now hrec htab htn hts, rfl,
      sortByTimestamp_perm _, sortByTimestamp_sorted _⟩
  · intro st store tid rec0 tabUrl now hrec htab hid htn0 hts0 hne
    refine ⟨{ rec0 with
        actions := sortByTimestamp (st.accumulatedActions ++ store.getD []) },
      handleStop_content_eq st store tid rec0 tabUrl now hrec htab hid htn0 hts0 hne,
      rfl, sortByTimestamp_perm _, sortByTimestamp_sorted _⟩

/-- Closed instance of `C3_stop_sorted_union_amended` (fallback path at a
concrete state and cache). -/
theorem C3_stop_sorted_union_amended_witness :
    ∃ r : Recording,
      handleStopRecording stopCounterState (some [sampleAction 2, sampleAction 1])
          none (some "https://example.com") 9 =
        (resetState, some r, StopResult.ok r)
      ∧ r.actions =
          sortByTimestamp (stopCounterState.accumulatedActions
            ++ (some [sampleAction 2, sampleAction 1]).getD [])
      ∧ r.actions.Perm (stopCounterState.accumulatedActions
          ++ (some [sampleAction 2, sampleAction 1]).getD [])
      ∧ List.Pairwise (fun a b : Action => a.timestamp ≤ b.timestamp) r.actions :=
  C3_stop_sorted_union_amended.1 stopCounterState
    (some [sampleAction 2, sampleAction 1]) 1 (some "https://example.com") 9
    (by decide) rfl (by decide) (by decide)

/-! ## Claim C4 -/

/-- A recording-in-progress state whose page is about to be unreachable. -/
def c4State : BGState :=
  { isRecording := true, isPaused := false, testName := some "t",
    currentTabId := some 2, startTime := some 5 }

/-- The recording the fallback stop path assembles from `c4State` when the
tab URL cannot be read: its `url` is the literal `"unknown"`, which the
validator rejects. -/
def c4Recording : Recording :=
  { id := "rec_" ++ String.mk (decRepr 9), version := "1.0.0", testName := "t",
    url := "unknown", startTime := toISOString 5, endTime := toISOString 9,
    viewport := some { width := 1920, height := 1080 },
    userAgent := "Mozilla/5.0 (Windows NT 10.0; Win64; x64) AppleWebKit/537.36",
    actions := [] }

/-- Refutes C4 at a concrete input: this stop call succeeds and persists a
recording that the recording validator rejects (`url = "unknown"` is not a
parseable URL), and the response carries no validation outcome — the stop
path never runs `validateRecording`. -/
theorem C4_stop_no_validation_counterexample :
    handleStopRecording c4State none none none 9 =
      (resetState, some c4Recording, StopResult.ok c4Recording)
    ∧ (validateRecording c4Recording).isValid = false := by
  constructor
  · rw [handleStop_fallback_eq c4State none 2 none 9 rfl rfl (by decide) (by decide)]
    have : stopFallbackRecording c4State none none 9 = c4Recording := by
      simp [stopFallbackRecording, c4Recording, c4State, sortByTimestamp_nil]
    rw [this]
  · decide

/-- C4 (amended): every stop call on the fallback path with session
metadata present returns success and persists the assembled recording
without consulting the recording validator — in particular it does so even
for a recording the validator rejects (`c4Recording`). -/
theorem C4_stop_no_validation_amended :
    (∀ (st : BGState) (store : Option (List Action)) (tid : Nat)
        (tabUrl : Option String) (now : Nat),
      st.isRecording = true → st.currentTabId = some tid →
      optStrFalsy st.testName = false → optNatFalsy st.startTime = false →
      handleStopRecording st store none tabUrl now =
        (resetState, some (stopFallbackRecording st store tabUrl now),
         StopResult.ok (stopFallbackRecording st store tabUrl now)))
    ∧ ((validateRecording c4Recording).isValid = false
      ∧ handleStopRecording c4State none none none 9 =
          (resetState, some c4Recording, StopResult.ok c4Recording)) := by
  refine ⟨?_, by decide, ?_⟩
  · intro st store tid tabUrl now hrec htab htn hts
    exact handleStop_fallback_eq st store tid tabUrl now hrec htab htn hts
  · rw [handleStop_fallback_eq c4State none 2 none 9 rfl rfl (by decide) (by decide)]
    have : stopFallbackRecording c4State none none 9 = c4Recording := by
      simp [stopFallbackRecording, c4Recording, c4State, sortByTimestamp_nil]
    rw [this]

/-- Closed instance of `C4_stop_no_validation_amended` at a concrete
state. -/
theorem C4_stop_no_validation_amended_witness :
    handleStopRecording c4State (some [sampleAction 1]) none (some "https://e.com") 4 =
      (resetState,
       some (stopFallbackRecording c4State (some [sampleAction 1])
        (some "https://e.com") 4),
       StopResult.ok (stopFallbackRecording c4State (some [sampleAction 1])
        (some "https://e.com") 4)) :=
  C4_stop_no_validation_amended.1 c4State (some [sampleAction 1]) 2
    (some "https://e.com") 4 rfl rfl (by decide) (by decide)

/-! ## Claim C5 -/

/-- The freshness invariant: whenever the coordinator is idle, the counter
is zero and no actions are accumulated (every path that leaves recording
goes through `resetState`). -/
def idleFresh (st : BGState) : Prop :=
  st.isRecording = false → st.actionCounter = 0 ∧ st.accumulatedActions = []

theorem sysStep_idleFresh (st : BGState) (store : Option (List Action)) (ev : SysEv)
    (h : idleFresh st) : idleFresh (sysStep (st, store) ev).1 := by
  cases ev <;>
    simp only [sysStep, handleStartRecording, handleSyncAction, handleSaveCurrentState,
      onNavigationStart, handlePauseRecording, handleResumeRecording,
      handleStopRecording] <;>
    repeat' split
  all_goals
    first
    | exact h
    | (intro _; exact ⟨rfl, rfl⟩)
    | (intro hfalse; simp_all [idleFresh])

theorem runEvents_idleFresh (evs : List SysEv) : idleFresh (runEvents evs).1 := by
  have gen : ∀ (l : List SysEv) (s : BGState × Option (List Action)),
      idleFresh s.1 → idleFresh (l.foldl sysStep s).1 := by
    intro l
    induction l with
    | nil => intro s h; exact h
    | cons e rest ih =>
      intro s h
      exact ih _ (sysStep_idleFresh s.1 s.2 e h)
  exact gen evs (initialState, none) (fun _ => ⟨rfl, rfl⟩)

/-- A run that records one action on a single page, stops (content script
unreachable), and starts a second session. -/
def leftoverTrace : List SysEv :=
  [SysEv.evStart "session one" (some 1) true 5,
   SysEv.evSync (some (sampleAction 3)),
   SysEv.evStop none none 9,
   SysEv.evStart "session two" (some 1) true 10]

/-- Refutes C5 at a concrete run: immediately after the second successful
start, the counter and accumulation are fresh, but the durable per-page
cache (`saveaction_current_actions`) still holds the first session's
`act_001` — neither `handleStopRecording` nor `handleStartRecording` nor
`resetState` clears the storage key (only the navigation merge does). -/
theorem C5_leftover_cache_counterexample :
    (runEvents leftoverTrace).1.isRecording = true
    ∧ (runEvents leftoverTrace).1.actionCounter = 0
    ∧ (runEvents leftoverTrace).2 = some [{ sampleAction 3 with id := "act_001" }] := by
  exact ⟨by decide, by decide, by decide⟩

/-- C5 (amended): after any successful `start` from an idle reachable
state the global counter is 0 and `accumulatedActions` is empty (via the
reset at the end of the previous session), and the first action synced in
the new session is stored under id `act_001`; the durable per-page cache,
however, is not cleared by `start` — actions a previous session left in
storage (shown by the counterexample) survive into the new session. -/
theorem C5_start_fresh_amended :
    (∀ (evs : List SysEv) (tn : String) (tab : Option Nat) (d : Bool) (now : Nat),
      (runEvents evs).1.isRecording = false →
      (sysStep (runEvents evs) (SysEv.evStart tn tab d now)).1.actionCounter = 0
      ∧ (sysStep (runEvents evs) (SysEv.evStart tn tab d now)).1.accumulatedActions = [])
    ∧ (∀ (evs : List SysEv) (tn : String) (tid : Nat) (now : Nat) (a : Action),
      (runEvents evs).1.isRecording = false →
      handleSyncAction (sysStep (runEvents evs) (SysEv.evStart tn (some tid) true now)).1
          (sysStep (runEvents evs) (SysEv.evStart tn (some tid) true now)).2 (some a) =
        ({ (sysStep (runEvents evs) (SysEv.evStart tn (some tid) true now)).1 with
            actionCounter := 1 },
         some ((runEvents evs).2.getD [] ++ [{ a with id := "act_001" }]), true)) := by
  constructor
  · intro evs tn tab d now hidle
    obtain ⟨hc, ha⟩ := runEvents_idleFresh evs hidle
    cases htab : tab with
    | none => simp [sysStep, handleStartRecording, hidle, hc, ha]
    | some tid =>
      cases d with
      | true => simp [sysStep, handleStartRecording, hidle, hc, ha]
      | false => simp [sysStep, handleStartRecording, hidle, resetState]
  · intro evs tn tid now a hidle
    obtain ⟨hc, _⟩ := runEvents_idleFresh evs hidle
    have hid : mkActId 1 = "act_001" := by decide
    simp [sysStep, handleStartRecording, hidle, handleSyncAction, hc, hid]

/-- Closed instance of `C5_start_fresh_amended` from the empty run. -/
theorem C5_start_fresh_amended_witness :
    ((sysStep (runEvents []) (SysEv.evStart "t" (some 1) true 5)).1.actionCounter = 0
     ∧ (sysStep (runEvents []) (SysEv.evStart "t" (some 1) true 5)).1.accumulatedActions = [])
    ∧ handleSyncAction (sysStep (runEvents []) (SysEv.evStart "t" (some 1) true 5)).1
          (sysStep (runEvents []) (SysEv.evStart "t" (some 1) true 5)).2
          (some (sampleAction 3)) =
        ({ (sysStep (runEvents []) (SysEv.evStart "t" (some 1) true 5)).1 with
            actionCounter := 1 },
         some ((runEvents []).2.getD [] ++ [{ sampleAction 3 with id := "act_001" }]),
         true) :=
  ⟨C5_start_fresh_amended.1 [] "t" (some 1) true 5 (by decide),
   C5_start_fresh_amended.2 [] "t" 1 5 (sampleAction 3) (by decide)⟩

/-! ## Claim C9 -/

/-- The fixed candidate precedence of `generateSelectors`. -/
def selectorTypeOrder : List SelectorType :=
  [SelectorType.id, SelectorType.dataTestId, SelectorType.ariaLabel,
   SelectorType.name, SelectorType.css, SelectorType.text,
   SelectorType.textContains, SelectorType.xpath, SelectorType.xpathAbsolute,
   SelectorType.position]

/-- A candidate of a strategy produced a (truthy) value. -/
def candidatePopulated (s : SelectorStrategy) : SelectorType → Bool
  | .id => optTruthy s.id
  | .dataTestId => optTruthy s.dataTestId
  | .ariaLabel => optTruthy s.ariaLabel
  | .name => optTruthy s.name
  | .css => optTruthy s.css
  | .text => optTruthy s.text
  | .textContains => optTruthy s.textContains
  | .xpath => optTruthy s.xpath
  | .xpathAbsolute => optTruthy s.xpathAbsolute
  | .position => s.position.isSome

theorem prepend_ne_empty (s t : String) (h : s.data ≠ []) : s ++ t ≠ "" := by
  intro he
  apply h
  have hd := congrArg String.data he
  rw [String.data_append] at hd
  exact (List.append_eq_nil.mp hd).1

theorem generateRelativeXPath_ne_empty (n : DomNode) : generateRelativeXPath n ≠ "" := by
  intro he
  unfold generateRelativeXPath relativeXPathRest at he
  dsimp only at he
  repeat' split at he
  all_goals
    (simp only [String.append_assoc] at he;
     exact prepend_ne_empty "//" _ (by decide) he)

theorem generateAbsoluteXPath_ne_empty (n : DomNode) : generateAbsoluteXPath n ≠ "" := by
  unfold generateAbsoluteXPath
  exact prepend_ne_empty "/html/" _ (by decide)

/-- `filter` over a cons, phrased as an append of an optional singleton. -/
theorem filter_cons_append {α : Type} (p : α → Bool) (x : α) (xs : List α) :
    List.filter p (x :: xs) = (if p x then [x] else []) ++ List.filter p xs := by
  by_cases h : p x <;> simp [h]

theorem optTruthy_none : optTruthy none = false := rfl

theorem seg_opt (o : Option String) (k : SelectorType) :
    (if optTruthy o then [k] else []) =
      (if optTruthy (if optTruthy o then o else none) then [k] else []) := by
  by_cases h : optTruthy o
  · simp only [h, if_true]
  · simp only [Bool.not_eq_true] at h
    simp [h, optTruthy_none]

theorem seg_str (c : String) (k : SelectorType) :
    (if c ≠ "" then [k] else []) =
      (if optTruthy (if c ≠ "" then some c else none) then [k] else []) := by
  by_cases h : c = ""
  · subst h
    simp [optTruthy_none]
  · simp only [ne_eq, h, not_false_eq_true, if_true]
    have : optTruthy (some c) = true := by
      simp [optTruthy, h]
    simp [this]

theorem seg_text (t1 t2 : Option String) :
    (if optTruthy t1 then [SelectorType.text]
      else if optTruthy t2 then [SelectorType.textContains] else []) =
      (if optTruthy (if optTruthy t1 then t1 else none)
        then [SelectorType.text] else []) ++
      (if optTruthy (if optTruthy t1 then none
          else if optTruthy t2 then t2 else none)
        then [SelectorType.textContains] else []) := by
  by_cases h1 : optTruthy t1
  · simp only [h1, if_true]
    simp [optTruthy_none]
  · simp only [Bool.not_eq_true] at h1
    by_cases h2 : optTruthy t2
    · simp [h1, h2, optTruthy_none]
    · simp only [Bool.not_eq_true] at h2
      simp [h1, h2, optTruthy_none]

theorem seg_pos (pos : Option (String × Nat)) :
    (match pos with | some _ => [SelectorType.position] | none => []) =
      (if pos.isSome then [SelectorType.position] else []) := by
  cases pos <;> simp

/-- Core of the priority/filter correspondence, stated over the abstract
candidate values the generator computed. -/
theorem priority_filter_core (s : SelectorStrategy)
    (idc dt aria nm t1 t2 : Option String) (css xp xpa : String)
    (pos : Option (String × Nat))
    (h1 : s.id = if optTruthy idc then idc else none)
    (h2 : s.dataTestId = if optTruthy dt then dt else none)
    (h3 : s.ariaLabel = if optTruthy aria then aria else none)
    (h4 : s.name = if optTruthy nm then nm else none)
    (h5 : s.css = if css ≠ "" then some css else none)
    (h6 : s.text = if optTruthy t1 then t1 else none)
    (h7 : s.textContains = if optTruthy t1 then none
      else if optTruthy t2 then t2 else none)
    (h8 : s.xpath = if xp ≠ "" then some xp else none)
    (h9 : s.xpathAbsolute = if xpa ≠ "" then some xpa else none)
    (h10 : s.position = pos) :
    (if optTruthy idc then [SelectorType.id] else []) ++
      (if optTruthy dt then [SelectorType.dataTestId] else []) ++
      (if optTruthy aria then [SelectorType.ariaLabel] else []) ++
      (if optTruthy nm then [SelectorType.name] else []) ++
      (if css ≠ "" then [SelectorType.css] else []) ++
      (if optTruthy t1 then [SelectorType.text]
        else if optTruthy t2 then [SelectorType.textContains] else []) ++
      ((if xp ≠ "" then [SelectorType.xpath] else []) ++
       (if xpa ≠ "" then [SelectorType.xpathAbsolute] else [])) ++
      (match pos with | some _ => [SelectorType.position] | none => []) =
      selectorTypeOrder.filter (candidatePopulated s) := by
  conv_rhs =>
    rw [selectorTypeOrder]
    rw [filter_cons_append, filter_cons_append, filter_cons_append,
      filter_cons_append, filter_cons_append, filter_cons_append,
      filter_cons_append, filter_cons_append, filter_cons_append,
      filter_cons_append, List.filter_nil]
  simp only [candidatePopulated, h1, h2, h3, h4, h5, h6, h7, h8, h9, h10]
  rw [seg_opt idc SelectorType.id, seg_opt dt SelectorType.dataTestId,
    seg_opt aria SelectorType.ariaLabel, seg_opt nm SelectorType.name,
    seg_str css SelectorType.css, seg_text t1 t2,
    seg_str xp SelectorType.xpath, seg_str xpa SelectorType.xpathAbsolute]
  rcases pos with _ | p <;> simp [List.append_assoc]

/-- The priority list of a generated strategy is the fixed precedence
filtered to the populated candidates. -/
theorem generateSelectors_priority (cfg : SelectorConfig) (n : DomNode)
    (hx : cfg.includeXPath = true) (hp : cfg.includePosition = true) :
    (generateSelectors cfg n).priority =
      selectorTypeOrder.filter (candidatePopulated (generateSelectors cfg n)) := by
  have core := priority_filter_core (generateSelectors cfg n)
    (generateIdSelector n.data) (generateDataTestIdSelector n.data)
    (generateAriaLabelSelector n.data) (generateNameSelector n.data)
    (generateTextSelector n.data).1 (generateTextSelector n.data).2
    (generateCssSelector cfg n) (generateRelativeXPath n) (generateAbsoluteXPath n)
    (generatePositionSelector n)
    (by simp [generateSelectors]) (by simp [generateSelectors])
    (by simp [generateSelectors]) (by simp [generateSelectors])
    (by simp [generateSelectors]) (by simp [generateSelectors])
    (by simp [generateSelectors]) (by simp [generateSelectors, hx])
    (by simp [generateSelectors, hx]) (by simp [generateSelectors, hp])
  rw [← core]
  simp only [generateSelectors, hx, hp, if_true, Bool.true_and]
  rcases hpos : generatePositionSelector n with _ | p <;> simp [hpos]

/-- A node with the static id `login-btn`. -/
def loginBtnNode : DomNode :=
  { data := { idAttr := "login-btn", tag := "BUTTON", text := "Login" }, frames := [] }

/-- A node whose only id is the framework-generated `react-48213`. -/
def reactIdNode : DomNode :=
  { data := { idAttr := "react-48213", tag := "DIV" }, frames := [] }

/-- C9: `generateSelectors` computes every candidate independently — the
XPath candidates are populated regardless of whether earlier candidates
succeeded — and its `priority` lists exactly the candidates that produced
a non-empty value, in the fixed precedence id → dataTestId → ariaLabel →
name → css → text-or-textContains → relative xpath → absolute xpath →
position.  A node with `id="login-btn"` gets `priority[0] = id`; on a node
with the dynamic id `react-48213` the id candidate is absent and
`priority[0]` is the next populated candidate (css). -/
theorem C9_selector_priority :
    (∀ (cfg : SelectorConfig) (n : DomNode),
      cfg.includeXPath = true → cfg.includePosition = true →
      (generateSelectors cfg n).priority =
        selectorTypeOrder.filter (candidatePopulated (generateSelectors cfg n))
      ∧ (generateSelectors cfg n).xpath = some (generateRelativeXPath n)
      ∧ (generateSelectors cfg n).xpathAbsolute = some (generateAbsoluteXPath n))
    ∧ (generateSelectors DEFAULT_SELECTOR_CONFIG loginBtnNode).priority.head? =
        some SelectorType.id
    ∧ ((generateSelectors DEFAULT_SELECTOR_CONFIG reactIdNode).id = none
      ∧ SelectorType.id ∉ (generateSelectors DEFAULT_SELECTOR_CONFIG reactIdNode).priority
      ∧ (generateSelectors DEFAULT_SELECTOR_CONFIG reactIdNode).priority.head? =
          some SelectorType.css) := by
  refine ⟨?_, by decide, by decide, by decide, by decide⟩
  intro cfg n hx hp
  refine ⟨generateSelectors_priority cfg n hx hp, ?_, ?_⟩
  · have hne := generateRelativeXPath_ne_empty n
    simp [generateSelectors, hx, hne]
  · have hne := generateAbsoluteXPath_ne_empty n
    simp [generateSelectors, hx, hne]

/-- Closed instance of `C9_selector_priority` at the default configuration
and the `login-btn` node. -/
theorem C9_selector_priority_witness :
    (generateSelectors DEFAULT_SELECTOR_CONFIG loginBtnNode).priority =
      selectorTypeOrder.filter
        (candidatePopulated (generateSelectors DEFAULT_SELECTOR_CONFIG loginBtnNode))
    ∧ (generateSelectors DEFAULT_SELECTOR_CONFIG loginBtnNode).xpath =
        some (generateRelativeXPath loginBtnNode)
    ∧ (generateSelectors DEFAULT_SELECTOR_CONFIG loginBtnNode).xpathAbsolute =
        some (generateAbsoluteXPath loginBtnNode) :=
  C9_selector_priority.1 DEFAULT_SELECTOR_CONFIG loginBtnNode rfl rfl

end SaveAction
